import Mathlib

/-!
Verification of the cloud pricing calculator's sizing/validation/pricing core.

The Python sources are shallowly embedded below.  Python `str` values are
modelled by `String` (compared by code points, as Python does), Python numbers
(`int` and `float`) by `ℚ` (exact rationals; binary-float rounding artifacts
are out of scope and `round(x, 2)` ties are modelled half-up), and Python
`dict` rows by total functions `String → Value` where `Value.none` models an
absent cell / `None`.

Because several built-in `String`/`Rat` operations do not reduce inside the
kernel, code-point-faithful structural re-implementations (`py_lower`,
`py_strip`, ...) are used throughout the embedding, and all non-integer
rational constants are written with `mkRat`.
-/

/-- Lexicographic code-point comparison of character lists, as Python compares
strings.  Python `a <= b` on `str` compares by Unicode code point. -/
def charListLe : List Char → List Char → Bool
  | [], _ => true
  | _ :: _, [] => false
  | a :: as, b :: bs =>
    if a.toNat < b.toNat then true
    else if b.toNat < a.toNat then false
    else charListLe as bs

/-- Python string `<=` (lexicographic by code point). -/
def py_str_le (a b : String) : Bool := charListLe a.data b.data

/-- Python `str.lower()` (ASCII case folding suffices for the tokens used). -/
def py_lower (s : String) : String := ⟨s.data.map Char.toLower⟩

/-- Python `str.upper()`. -/
def py_upper (s : String) : String := ⟨s.data.map Char.toUpper⟩

/-- Python `str.strip()`: drop whitespace from both ends. -/
def py_strip (s : String) : String :=
  ⟨((s.data.dropWhile Char.isWhitespace).reverse.dropWhile Char.isWhitespace).reverse⟩

/-- Helper for `py_split_ws`: split on whitespace runs, dropping empties. -/
def wordsAux : List Char → List Char → List (List Char)
  | [], cur => if cur.isEmpty then [] else [cur.reverse]
  | c :: cs, cur =>
    if c.isWhitespace then
      if cur.isEmpty then wordsAux cs [] else cur.reverse :: wordsAux cs []
    else wordsAux cs (c :: cur)

/-- Python `str.split()` with no argument: split on whitespace runs. -/
def py_split_ws (s : String) : List String := (wordsAux s.data []).map String.mk

/-- Python `sep.join(parts)`. -/
def py_join (sep : String) : List String → String
  | [] => ""
  | [x] => x
  | x :: y :: xs => x ++ sep ++ py_join sep (y :: xs)

/-- Does `p` occur as a leading pattern of `s`? -/
def startsWithL : List Char → List Char → Bool
  | [], _ => true
  | _ :: _, [] => false
  | p :: ps, c :: cs => p == c && startsWithL ps cs

/-- Fuel-driven body of `py_replace` (left-to-right, non-overlapping). -/
def replaceFuel (pat rep : List Char) : Nat → List Char → List Char
  | 0, s => s
  | _ + 1, [] => []
  | n + 1, c :: cs =>
    if startsWithL pat (c :: cs) then rep ++ replaceFuel pat rep n ((c :: cs).drop pat.length)
    else c :: replaceFuel pat rep n cs

/-- Python `s.replace(pat, rep)` for a non-empty pattern. -/
def py_replace (s pat rep : String) : String :=
  if pat.data.isEmpty then s
  else ⟨replaceFuel pat.data rep.data s.data.length s.data⟩

/-- Python `itype.split(".")[0]`: the prefix of the string before the first
dot (the whole string when there is no dot). -/
def py_dot_head (s : String) : String := ⟨s.data.takeWhile (fun c => c ≠ '.')⟩

/-- Accumulate a decimal digit string into a natural number. -/
def digitsToNat (acc : Nat) : List Char → Option Nat
  | [] => some acc
  | c :: cs => if c.isDigit then digitsToNat (acc * 10 + (c.toNat - 48)) cs else none

/-- Python `float(s)` on plain decimal strings (optional sign, digits, one
optional dot).  Exponents / inf / nan spellings are out of the modelled
fragment; they never arise in the validated columns. -/
def py_parse_float (s : String) : Option ℚ :=
  let t := (py_strip s).data
  let signed : Bool × List Char :=
    match t with
    | '-' :: r => (true, r)
    | '+' :: r => (false, r)
    | _ => (false, t)
  let neg := signed.1
  let body := signed.2
  let intPart := body.takeWhile Char.isDigit
  let rest := body.dropWhile Char.isDigit
  let mag : Option ℚ :=
    match rest with
    | [] =>
      if intPart.isEmpty then none
      else (digitsToNat 0 intPart).map (fun n => (n : ℚ))
    | '.' :: frac =>
      if frac.all Char.isDigit && !(intPart.isEmpty && frac.isEmpty) then
        match digitsToNat 0 intPart, digitsToNat 0 frac with
        | some i, some f => some (mkRat (i * 10 ^ frac.length + f) (10 ^ frac.length))
        | some i, none => if frac.isEmpty then some ((i : ℚ)) else none
        | none, some f => if intPart.isEmpty then some (mkRat f (10 ^ frac.length)) else none
        | none, none => none
      else none
    | _ => none
  mag.map (fun q => if neg then -q else q)

/-- Round a rational to cents, Python `round(x, 2)` / `f"{x:.2f}"`.  The
contract is tie-free on the values the calculator produces; ties are
modelled half-up.  Written as a pure integer formula so that it evaluates
inside the kernel; `round2_eq` restates it as `⌊100·q + 1/2⌋ / 100`. -/
def round2 (q : ℚ) : ℚ := mkRat ((200 * q.num + (q.den : ℤ)) / ((2 * q.den : ℕ) : ℤ)) 100

/-! ## Row values

A spreadsheet cell is `Value.none` (absent cell / Python `None`), a string,
or a number; a row is a total map from column names to values. -/

inductive Value where
  | none
  | str (s : String)
  | num (q : ℚ)
deriving DecidableEq

/-- Digits of a natural number (most significant first); fuel-driven. -/
def natReprAux : Nat → Nat → List Char
  | 0, _ => []
  | fuel + 1, n => if n < 10 then [Char.ofNat (48 + n)] else natReprAux fuel (n / 10) ++ [Char.ofNat (48 + n % 10)]

/-- Decimal rendering of a natural number. -/
def natStr (n : Nat) : String := ⟨natReprAux (n + 1) n⟩

/-- Python `str(v)`.  The rendering of non-integer numbers is approximate
(it only ever appears inside free-text diagnostic messages for non-missing
values, never in a decision). -/
def pyStr : Value → String
  | .none => "None"
  | .str s => s
  | .num q =>
    let sign := if q.num < 0 then "-" else ""
    if q.den = 1 then sign ++ natStr q.num.natAbs ++ ".0"
    else sign ++ natStr q.num.natAbs ++ "/" ++ natStr q.den

abbrev Row := String → Value

/-- Assigning one column of a row (`row[f] = v`). -/
def Row.set (row : Row) (f : String) (v : Value) : Row :=
  fun g => if g = f then v else row g

/-- validator.py `_NULLISH_STR`. -/
def NULLISH_STR : List String := ["", "nan", "null", "none", "n/a", "#n/a"]

/-- validator.py `_is_missing`: `None`, NaN, or a nullish string token
(case-insensitively, after stripping).  Pandas NaN/NaT sentinels are covered
by `Value.none`. -/
def is_missing (v : Value) : Bool :=
  match v with
  | .none => true
  | _ => NULLISH_STR.contains (py_lower (py_strip (pyStr v)))

/-- validator.py `_norm_str`: a normalized non-empty string, or `none` when
missing/nullish. -/
def norm_str (v : Value) : Option String :=
  if is_missing v then none
  else
    let s := py_strip (pyStr v)
    if NULLISH_STR.contains (py_lower s) then none else some s

/-- Python `float(v)` as used by `_to_float_pos` (numbers pass through,
plain decimal strings parse, anything else raises → `none`). -/
def py_float : Value → Option ℚ
  | .none => none
  | .str s => py_parse_float s
  | .num q => some q

/-- validator.py `_to_float_pos`: a positive float, else `none`. -/
def to_float_pos (v : Value) : Option ℚ :=
  if is_missing v then none
  else
    match py_float v with
    | some q => if 0 < q then some q else none
    | none => none

/-- validator.py `_is_bool_like`. -/
def is_bool_like (v : Value) : Bool :=
  ["true", "false", "0", "1", "yes", "no"].contains (py_lower (py_strip (pyStr v)))


/-- Python's stable `sorted(xs, key=...)`.  A stable sort of a list under a
total preorder is unique, so structural insertion sort is extensionally the
sort Python performs (and it evaluates inside the kernel). -/
def py_sorted {α : Type} (le : α → α → Bool) (l : List α) : List α :=
  List.insertionSort (fun a b => le a b = true) l

/-! ## recommender.py: catalogs and size selection

A catalog entry (`catalog[itype] = {"instanceType": itype, "vcpu": v,
"memory_gib": m}`) is a `Shape`; a catalog is the list of entries (Python
dict keyed by the instance type). -/

structure Shape where
  instanceType : String
  vcpu : ℤ
  memory_gib : ℚ
deriving DecidableEq

/-- recommender.py `FAMILY_PREFS`. -/
def FAMILY_PREFS : List (String × List String) :=
  [("balanced", ["m7i", "m6i", "m5"]),
   ("compute",  ["c7i", "c6i", "c5"]),
   ("memory",   ["r7i", "r6i", "r5"])]

/-- `FAMILY_PREFS.get(profile, FAMILY_PREFS["balanced"])`. -/
def families_for (profile : String) : List String :=
  (FAMILY_PREFS.lookup profile).getD ["m7i", "m6i", "m5"]

/-- recommender.py `_AZ_REGION_NORMALIZE`. -/
def AZ_REGION_NORMALIZE : List (String × String) :=
  [("east us", "eastus"), ("eastus", "eastus"),
   ("east us 2", "eastus2"), ("eastus2", "eastus2"),
   ("west us", "westus"), ("westus", "westus"),
   ("west us 2", "westus2"), ("westus2", "westus2")]

/-- recommender.py `normalize_azure_region`. -/
def normalize_azure_region (s : String) : String :=
  let key := py_join " " (py_split_ws (py_lower s))
  match AZ_REGION_NORMALIZE.lookup key with
  | some v => v
  | none => py_replace key " " ""

/-- recommender.py `infer_profile`. -/
def infer_profile (vcpu : ℤ) (mem_gib : ℚ) : String :=
  if vcpu ≤ 0 ∨ mem_gib ≤ 0 then "balanced"
  else
    let mem_per_vcpu := mem_gib / (vcpu : ℚ)
    if mem_per_vcpu ≤ 3 then "compute"
    else if 6 ≤ mem_per_vcpu then "memory"
    else "balanced"

/-- recommender.py `_family_rank`: position of `itype.split(".")[0]` in the
preference list, or `len(families) + 1` when absent. -/
def family_rank (families : List String) (itype : String) : ℕ :=
  match families.indexOf? (py_dot_head itype) with
  | some i => i
  | none => families.length + 1

/-- The AWS sort key `( _family_rank, vcpu, memory_gib, itype )`. -/
def aws_sort_key (families : List String) (s : Shape) : ℕ × ℤ × ℚ × String :=
  (family_rank families s.instanceType, s.vcpu, s.memory_gib, s.instanceType)

/-- Python tuple `<=` on `(rank, vcpu, memory, itype)` keys. -/
def key4_le (a b : ℕ × ℤ × ℚ × String) : Bool :=
  decide (a.1 < b.1 ∨ (a.1 = b.1 ∧ (a.2.1 < b.2.1 ∨ (a.2.1 = b.2.1 ∧
    (a.2.2.1 < b.2.2.1 ∨ (a.2.2.1 = b.2.2.1 ∧ py_str_le a.2.2.2 b.2.2.2 = true))))))

/-- Python tuple `<=` on `(vcpu, memory, itype)` keys. -/
def key3_le (a b : ℤ × ℚ × String) : Bool :=
  decide (a.1 < b.1 ∨ (a.1 = b.1 ∧ (a.2.1 < b.2.1 ∨ (a.2.1 = b.2.1 ∧
    py_str_le a.2.2 b.2.2 = true))))

/-- Python tuple `<=` on `(memory, vcpu, itype)` keys. -/
def keym_le (a b : ℚ × ℤ × String) : Bool :=
  decide (a.1 < b.1 ∨ (a.1 = b.1 ∧ (a.2.1 < b.2.1 ∨ (a.2.1 = b.2.1 ∧
    py_str_le a.2.2 b.2.2 = true))))

/-- Candidate filter of both selectors:
`info["vcpu"] >= need_vcpu and info["memory_gib"] >= need_mem_gib`. -/
def qualifies (need_vcpu : ℤ) (need_mem_gib : ℚ) (s : Shape) : Bool :=
  need_vcpu ≤ s.vcpu && need_mem_gib ≤ s.memory_gib

/-- recommender.py `pick_instance`: filter the qualifying candidates, sort
them by `(_family_rank(families, t), vcpu, memory_gib, t)` and return the
first; `None` when no candidate qualifies. -/
def pick_instance (catalog : List Shape) (profile : String) (need_vcpu : ℤ)
    (need_mem_gib : ℚ) : Option Shape :=
  let families := families_for profile
  let candidates := catalog.filter (qualifies need_vcpu need_mem_gib)
  match py_sorted (fun a b => key4_le (aws_sort_key families a) (aws_sort_key families b)) candidates with
  | [] => none
  | s :: _ => some s

/-- recommender.py `pick_azure_size`: like `pick_instance` but sorted by
`(vcpu, memory_gib, instanceType)` only — no profile, no family ranking. -/
def pick_azure_size (catalog : List Shape) (need_vcpu : ℤ) (need_mem_gib : ℚ) :
    Option Shape :=
  let candidates := catalog.filter (qualifies need_vcpu need_mem_gib)
  match py_sorted (fun a b => key3_le (a.vcpu, a.memory_gib, a.instanceType) (b.vcpu, b.memory_gib, b.instanceType)) candidates with
  | [] => none
  | s :: _ => some s

/-- recommender.py `smallest_meeting_cpu`: smallest shape (by
`(vcpu, memory_gib, instanceType)`) meeting only the vCPU requirement. -/
def smallest_meeting_cpu (catalog : List Shape) (vcpu_needed : ℤ) : Option Shape :=
  let fits := catalog.filter (fun s => decide (vcpu_needed ≤ s.vcpu))
  match py_sorted (fun a b => key3_le (a.vcpu, a.memory_gib, a.instanceType) (b.vcpu, b.memory_gib, b.instanceType)) fits with
  | [] => none
  | s :: _ => some s

/-- recommender.py `smallest_meeting_mem`: smallest shape (by
`(memory_gib, vcpu, instanceType)`) meeting only the memory requirement. -/
def smallest_meeting_mem (catalog : List Shape) (mem_needed : ℚ) : Option Shape :=
  let fits := catalog.filter (fun s => decide (mem_needed ≤ s.memory_gib))
  match py_sorted (fun a b => keym_le (a.memory_gib, a.vcpu, a.instanceType) (b.memory_gib, b.vcpu, b.instanceType)) fits with
  | [] => none
  | s :: _ => some s

/-- main.py `recommend_row`, selection step: Azure rows use
`pick_azure_size` (no profile), everything else the AWS `pick_instance`. -/
def recommend_choose (cloud : String) (catalog : List Shape) (profile : String)
    (vcpu : ℤ) (mem_gib : ℚ) : Option Shape :=
  if cloud == "azure" then pick_azure_size catalog vcpu mem_gib
  else pick_instance catalog profile vcpu mem_gib

/-- main.py `recommend_row`, fit diagnostic: Python
`rank(mem_only) >= rank(cpu_only)` where `rank(None) = (inf, inf)` and
tuples compare lexicographically. -/
def rank_ge (mem_only cpu_only : Option Shape) : Bool :=
  match mem_only, cpu_only with
  | none, _ => true
  | some _, none => false
  | some a, some b =>
    decide (b.vcpu < a.vcpu ∨ (b.vcpu = a.vcpu ∧ b.memory_gib ≤ a.memory_gib))

/-- main.py `recommend_row`, fit_reason computation (lines 392-406): `exact`
when the chosen shape matches the request (memory at 2-decimal rounding);
otherwise, on the AWS path only, `memory-bound` / `cpu-bound` by comparing
the constraint-only candidates, `no-fit-fallback` when neither exists; the
field stays `""` otherwise. -/
def recommend_fit (cloud : String) (catalog : List Shape) (profile : String)
    (vcpu : ℤ) (mem_gib : ℚ) : String :=
  match recommend_choose cloud catalog profile vcpu mem_gib with
  | none => ""
  | some chosen =>
    if chosen.vcpu = vcpu ∧ round2 chosen.memory_gib = round2 mem_gib then "exact"
    else if cloud == "aws" then
      let cpu_only := if catalog.isEmpty then none else smallest_meeting_cpu catalog vcpu
      let mem_only := if catalog.isEmpty then none else smallest_meeting_mem catalog mem_gib
      if cpu_only.isSome || mem_only.isSome then
        if rank_ge mem_only cpu_only then "memory-bound" else "cpu-bound"
      else "no-fit-fallback"
    else ""



/-- A small concrete AWS-style catalog used to exercise the selectors. -/
def catW : List Shape :=
  [⟨"m6i.2xlarge", 8, 32⟩, ⟨"m6i.xlarge", 4, 16⟩, ⟨"c6i.xlarge", 4, 8⟩]


/-! ## validator.py: canonical region sets and region validation -/

/-- validator.py `AWS_REGIONS` (public, non-Gov/China). -/
def AWS_REGIONS : List String :=
  ["us-east-1", "us-east-2", "us-west-1", "us-west-2",
   "ca-central-1",
   "eu-west-1", "eu-west-2", "eu-west-3", "eu-north-1", "eu-south-1", "eu-central-1", "eu-central-2",
   "ap-south-1", "ap-south-2", "ap-southeast-1", "ap-southeast-2", "ap-southeast-3", "ap-northeast-1", "ap-northeast-2", "ap-northeast-3",
   "ap-east-1",
   "sa-east-1",
   "af-south-1",
   "me-south-1", "me-central-1"]

/-- validator.py `AWS_GOV_REGIONS`. -/
def AWS_GOV_REGIONS : List String := ["us-gov-west-1", "us-gov-east-1"]

/-- validator.py `ALL_AWS_REGIONS = AWS_REGIONS | AWS_GOV_REGIONS`. -/
def ALL_AWS_REGIONS : List String := AWS_REGIONS ++ AWS_GOV_REGIONS

/-- validator.py `AZURE_REGIONS` (a Python set; the duplicate "westus3" of
the literal collapses). -/
def AZURE_REGIONS : List String :=
  ["eastus", "eastus2", "westus", "westus2", "westus3", "centralus", "northcentralus", "southcentralus",
   "northeurope", "westeurope", "eastasia", "southeastasia", "japaneast", "japanwest", "australiaeast",
   "australiasoutheast", "australiacentral", "brazilsouth", "southindia", "centralindia", "westindia",
   "canadacentral", "canadaeast", "westcentralus", "uksouth", "ukwest", "koreacentral", "koreasouth",
   "francecentral", "southafricanorth", "uaenorth", "switzerlandnorth", "germanywestcentral", "norwayeast",
   "jioindiawest", "swedencentral", "qatarcentral", "polandcentral", "italynorth", "israelcentral",
   "spaincentral", "mexicocentral", "malaysiawest", "newzealandnorth", "indonesiacentral", "austriaeast", "chilecentral"]

/-- validator.py `_closest_choices`.  The primary path calls the Python
stdlib fuzzy matcher `difflib.get_close_matches` (external to this
repository; with `cutoff=0.0` it returns some `n` of the choices); modelled
by the function's own ImportError fallback `choices[:n]`.  No claim depends
on which suggestions are listed, only on the level and field of the issue
that carries them. -/
def closest_choices (_token : String) (choices : List String) (n : Nat) : List String :=
  choices.take n

/-- validator.py `_AWS_REGION_ALIASES`. -/
def AWS_REGION_ALIASES : List (String × String) :=
  [("aws govcloud us-west", "us-gov-west-1"),
   ("aws-gov-west", "us-gov-west-1"),
   ("govcloud-us-west", "us-gov-west-1"),
   ("gov-west-1", "us-gov-west-1"),
   ("aws govcloud us-east", "us-gov-east-1"),
   ("aws-gov-east", "us-gov-east-1"),
   ("govcloud-us-east", "us-gov-east-1"),
   ("gov-east-1", "us-gov-east-1")]

/-- validator.py `_normalize_aws_region`: canonical codes pass through,
aliases map, otherwise the `govcloud-us` → `us-gov` legacy transform. -/
def normalize_aws_region (r : String) : String :=
  let k := py_lower (py_strip r)
  if ALL_AWS_REGIONS.contains k then k
  else
    match AWS_REGION_ALIASES.lookup k with
    | some v => v
    | none => py_replace k "govcloud-us" "us-gov"

/-- validator.py `Issue` (messages are transcribed with the surrounding
quote characters elided). -/
structure Issue where
  level : String
  field : String
  reason : String
  fix_hint : String
deriving DecidableEq

/-- validator.py `ValidationResult`. -/
structure ValidationResult where
  status : String
  blocking_for : String
  issues : List Issue
deriving DecidableEq

/-- The suggestion text of an invalid-AWS-region error. -/
def aws_region_suggestions (r_l : String) : String :=
  py_join ", " (closest_choices r_l (py_sorted py_str_le ALL_AWS_REGIONS) 5)

/-- Fix hint used when the token is an Azure canonical slug. -/
def aws_region_fix_azure_like (region_raw : Value) (r_l : String) : String :=
  pyStr region_raw ++ " looks like an Azure region. Use AWS codes like us-east-1, us-west-2, or us-gov-west-1. Closest: " ++
    aws_region_suggestions r_l

/-- Fix hint used for an ordinary unrecognized AWS region. -/
def aws_region_fix_plain (r_l : String) : String :=
  "Use AWS region codes like us-east-1, us-west-2, or us-gov-west-1. Closest: " ++
    aws_region_suggestions r_l

/-- validator.py `_validate_region_for_cloud`. -/
def validate_region_for_cloud (cloud : Option String) (region_raw : Value) : List Issue :=
  let c := py_lower (py_strip (cloud.getD ""))
  match norm_str region_raw with
  | none => []
  | some r =>
    let r_l := py_lower r
    if c == "azure" then
      let norm := normalize_azure_region r_l
      if !(AZURE_REGIONS.contains norm) then
        [⟨"error", "region", "invalid Azure region " ++ pyStr region_raw,
          "Use canonical Azure slugs (e.g., eastus, eastus2). Closest: " ++
            py_join ", " (closest_choices r_l (py_sorted py_str_le AZURE_REGIONS) 5)⟩]
      else if norm != r_l then
        [⟨"warn", "region", "normalized " ++ pyStr region_raw ++ " to " ++ norm,
          "Prefer canonical Azure slugs (e.g., eastus)."⟩]
      else []
    else if c == "aws" then
      let norm := normalize_aws_region r_l
      if ALL_AWS_REGIONS.contains norm then
        if norm != r_l then
          [⟨"warn", "region", "normalized " ++ pyStr region_raw ++ " to " ++ norm,
            "Prefer canonical AWS codes (e.g., us-gov-west-1, us-east-1)."⟩]
        else []
      else
        [⟨"error", "region", "invalid AWS region " ++ pyStr region_raw,
          if AZURE_REGIONS.contains r_l then aws_region_fix_azure_like region_raw r_l
          else aws_region_fix_plain r_l⟩]
    else []

/-! ## validator.py: `validate_row`

`validate_row` reads its row only at the twelve fields below;
`validateFields` is the same function expressed over those reads. -/

/-- Tier A presence check over `TIER_A_REQUIRED = ["cloud", "region"]`. -/
def tier_a_presence (cloud_v region_v : Value) : List Issue :=
  (if is_missing cloud_v then [⟨"error", "cloud", "missing", "Provide cloud."⟩] else []) ++
  (if is_missing region_v then [⟨"error", "region", "missing", "Provide region."⟩] else [])

/-- Tier A cloud-enum check (`TIER_A_ENUMS["cloud"] = {aws, azure}`). -/
def cloud_invalid_issues (cloud : Option String) (cloud_raw : Value) : List Issue :=
  match cloud with
  | some c =>
    if ["aws", "azure"].contains (py_lower c) then []
    else [⟨"error", "cloud", "invalid " ++ pyStr cloud_raw, "Use one of: aws, azure"⟩]
  | none => []

/-- Tier A capacity check: at least one of vcpu / memory_gib positive. -/
def capacity_issues (vcpu_v mem_v : Value) : List Issue :=
  if (to_float_pos vcpu_v).isNone && (to_float_pos mem_v).isNone then
    [⟨"error", "vcpu|memory_gib", "both missing or non-positive",
      "Provide vcpu (>0), memory_gib (>0), or both."⟩]
  else []

/-- One Tier B enum check (warn when present but outside the allowed set). -/
def tier_b_enum_issue_for (f : String) (allowed : List String) (v : Value) : List Issue :=
  match norm_str v with
  | some s =>
    if allowed.contains (py_lower s) then []
    else [⟨"warn", f, "invalid " ++ s, "Use one of: " ++ py_join ", " (py_sorted py_str_le allowed)⟩]
  | none => []

/-- All Tier B enum checks, in `TIER_B_ENUMS` iteration order. -/
def tier_b_enum_issues (os_v po_v prof_v arch_v : Value) : List Issue :=
  tier_b_enum_issue_for "os" ["linux", "windows"] os_v ++
  tier_b_enum_issue_for "purchase_option" ["ondemand", "spot", "reserved"] po_v ++
  tier_b_enum_issue_for "profile" ["balanced", "compute", "memory"] prof_v ++
  tier_b_enum_issue_for "arch" ["x86", "arm"] arch_v

/-- The `TIER_B_REQUIRED_FOR_PRICING` fields that are missing, in order. -/
def missing_b_fields (os_v po_v rootgb_v roottype_v : Value) : List String :=
  (if is_missing os_v then ["os"] else []) ++
  (if is_missing po_v then ["purchase_option"] else []) ++
  (if is_missing rootgb_v then ["root_gb"] else []) ++
  (if is_missing roottype_v then ["root_type"] else [])

/-- One cloud-specific boolean-toggle check. -/
def bool_toggle_issue_for (f : String) (v : Value) : List Issue :=
  if !(is_missing v) && !(is_bool_like v) then
    [⟨"warn", f, "non-boolean " ++ pyStr v, "Use true/false."⟩]
  else []

/-- `CLOUD_SPECIFIC_BOOL` checks: `byol` for aws, `ahub` for azure. -/
def bool_toggle_issues (cloud_l : String) (byol_v ahub_v : Value) : List Issue :=
  if cloud_l == "aws" then bool_toggle_issue_for "byol" byol_v
  else if cloud_l == "azure" then bool_toggle_issue_for "ahub" ahub_v
  else []

/-- The Tier A issue accumulator before the region gate: presence errors,
cloud-enum error, region issues (source order). -/
def tier_a_issues (cloud_v region_v : Value) : List Issue :=
  tier_a_presence cloud_v region_v ++
    cloud_invalid_issues (norm_str cloud_v) cloud_v ++
    validate_region_for_cloud (norm_str cloud_v) region_v

/-- The issue accumulator after the capacity check. -/
def pre_b_issues (cloud_v region_v vcpu_v mem_v : Value) : List Issue :=
  tier_a_issues cloud_v region_v ++ capacity_issues vcpu_v mem_v

/-- The region gate predicate of validate_row line 231. -/
def is_region_error (i : Issue) : Bool := i.level == "error" && i.field == "region"

/-- The Tier A gate predicate of validate_row line 242. -/
def is_error_issue (i : Issue) : Bool := i.level == "error"

/-- `cloud.lower() if cloud else ""`. -/
def cloud_l_of (cloud_v : Value) : String :=
  match norm_str cloud_v with
  | some c => py_lower c
  | none => ""

/-- The full issue list of a row that passed Tier A. -/
def all_b_issues (cloud_v region_v vcpu_v mem_v os_v po_v prof_v arch_v byol_v ahub_v : Value) : List Issue :=
  pre_b_issues cloud_v region_v vcpu_v mem_v ++
    tier_b_enum_issues os_v po_v prof_v arch_v ++
    bool_toggle_issues (cloud_l_of cloud_v) byol_v ahub_v

/-- The warning appended per missing pricing field. -/
def warn_missing_for_pricing (f : String) : Issue :=
  ⟨"warn", f, "missing for pricing", "Provide " ++ f ++ " to enable pricing."⟩

/-- validator.py `validate_row` as a function of the twelve field values it
reads, preserving the source order of checks, early returns and issue
accumulation. -/
def validateFields (cloud_v region_v vcpu_v mem_v os_v po_v prof_v arch_v rootgb_v roottype_v byol_v ahub_v : Value) : ValidationResult :=
  if (tier_a_issues cloud_v region_v).any is_region_error then
    ⟨"error", "recommendation", tier_a_issues cloud_v region_v⟩
  else if (pre_b_issues cloud_v region_v vcpu_v mem_v).any is_error_issue then
    ⟨"error", "recommendation", pre_b_issues cloud_v region_v vcpu_v mem_v⟩
  else if (missing_b_fields os_v po_v rootgb_v roottype_v).isEmpty then
    ⟨"ok", "none", all_b_issues cloud_v region_v vcpu_v mem_v os_v po_v prof_v arch_v byol_v ahub_v⟩
  else
    ⟨"rec_only", "pricing",
      all_b_issues cloud_v region_v vcpu_v mem_v os_v po_v prof_v arch_v byol_v ahub_v ++
        (missing_b_fields os_v po_v rootgb_v roottype_v).map warn_missing_for_pricing⟩

/-- validator.py `validate_row`. -/
def validate_row (row : Row) : ValidationResult :=
  validateFields (row "cloud") (row "region") (row "vcpu") (row "memory_gib")
    (row "os") (row "purchase_option") (row "profile") (row "arch")
    (row "root_gb") (row "root_type") (row "byol") (row "ahub")


/-- A priceable AWS row used to exercise the validator. -/
def rowOkBase : Row := fun f =>
  if f = "cloud" then .str "aws"
  else if f = "region" then .str "us-east-1"
  else if f = "vcpu" then .num 4
  else if f = "memory_gib" then .num 16
  else if f = "os" then .str "linux"
  else if f = "purchase_option" then .str "ondemand"
  else if f = "root_gb" then .num 100
  else if f = "root_type" then .str "gp3"
  else .none

/-- A row missing both `cloud` and `os` (Tier A and Tier B at once). -/
def rowMissingCloudOs : Row := fun f =>
  if f = "region" then .str "us-east-1"
  else if f = "vcpu" then .num 4
  else .none

/-- An AWS row whose region is an Azure slug (region-level error). -/
def rowBadRegion : Row := Row.set rowOkBase "region" (.str "eastus")


/-- The catalog of the C6 concrete scenario. -/
def catC6 : List Shape := [⟨"m6i.xlarge", 4, 16⟩, ⟨"m6i.2xlarge", 8, 32⟩]

/-- A small Azure catalog with the same capacities. -/
def catAz : List Shape := [⟨"Standard_D8s_v5", 8, 32⟩, ⟨"Standard_D4s_v5", 4, 16⟩]


/-! ## pricing.py: cost-model constants

The `os.getenv(...)` defaults; the environment-variable override source is
external configuration and is modelled at the documented defaults. -/

/-- pricing.py `S3_STD_GB_MONTH` (0.023 $/GB-month). -/
def S3_STD_GB_MONTH : ℚ := mkRat 23 1000

/-- pricing.py `EBS_GP3_GB_MONTH` (0.08 $/GB-month). -/
def EBS_GP3_GB_MONTH : ℚ := mkRat 8 100

/-- pricing.py `EBS_IO1_GB_MONTH` (0.125 $/GB-month). -/
def EBS_IO1_GB_MONTH : ℚ := mkRat 125 1000

/-- pricing.py `DTO_GB_PRICE` (0.09 $/GB). -/
def DTO_GB_PRICE : ℚ := mkRat 9 100

/-- pricing.py `NETWORK_PROFILE_TO_GB`. -/
def NETWORK_PROFILE_TO_GB : List (String × ℚ) :=
  [("low", 50), ("medium", 500), ("high", 5000)]

/-- pricing.py `AZSQL_DB_VCORE_HOURLY_GP` (0.15 $/vCore-hour). -/
def AZSQL_DB_VCORE_HOURLY_GP : ℚ := mkRat 15 100

/-- pricing.py `AZSQL_MI_VCORE_HOURLY_GP` (0.20 $/vCore-hour). -/
def AZSQL_MI_VCORE_HOURLY_GP : ℚ := mkRat 20 100

/-- pricing.py `AZSQL_STORAGE_GB_MONTH` (0.12 $/GB-month). -/
def AZSQL_STORAGE_GB_MONTH : ℚ := mkRat 12 100

/-- pricing.py `AZSQL_BC_MULTIPLIER` (1.75). -/
def AZSQL_BC_MULTIPLIER : ℚ := mkRat 175 100

/-- pricing.py `AZSQL_HS_MULTIPLIER` (1.25). -/
def AZSQL_HS_MULTIPLIER : ℚ := mkRat 125 100

/-- pricing.py `AZSQL_AHUB_DISCOUNT` (0.25 off compute when AHUB). -/
def AZSQL_AHUB_DISCOUNT : ℚ := mkRat 25 100

/-- pricing.py `_AZ_BASE_DEFAULT_HOURLY` (0.20 $/hour). -/
def AZ_BASE_DEFAULT_HOURLY : ℚ := mkRat 20 100

/-- pricing.py `_AZ_OS_UPLIFT`. -/
def AZ_OS_UPLIFT : List (String × ℚ) :=
  [("linux", 0), ("windows", mkRat 12 100), ("rhel", mkRat 9 100), ("suse", mkRat 7 100)]

/-! ## pricing.py: monthly calculators -/

/-- pricing.py `monthly_compute_cost`: `round((price or 0.0) * hours, 2)`. -/
def monthly_compute_cost (price_per_hour : Option ℚ) (hours : ℚ) : ℚ :=
  round2 ((price_per_hour.getD 0) * hours)

/-- pricing.py `monthly_ebs_cost`: io1 vs gp3 tier, gp3 fallback. -/
def monthly_ebs_cost (ebs_gb : ℚ) (ebs_type : String) : ℚ :=
  let et := py_lower (py_strip (if ebs_type = "" then "gp3" else ebs_type))
  let rate := if et == "io1" then EBS_IO1_GB_MONTH else EBS_GP3_GB_MONTH
  round2 (max 0 ebs_gb * rate)

/-- pricing.py `monthly_s3_cost`. -/
def monthly_s3_cost (s3_gb : ℚ) : ℚ :=
  round2 (max 0 s3_gb * S3_STD_GB_MONTH)

/-- pricing.py `monthly_network_cost`: named egress profile to assumed GB,
zero for empty/unknown profiles. -/
def monthly_network_cost (profile : String) : ℚ :=
  if profile = "" then 0
  else
    match NETWORK_PROFILE_TO_GB.lookup (py_lower (py_strip profile)) with
    | none => 0
    | some gb => round2 (gb * DTO_GB_PRICE)

/-- The per-row monthly line items of main.py `price_cmd` (lines 718-833). -/
structure PricedLineItems where
  compute : ℚ
  ebs : ℚ
  s3 : ℚ
  network : ℚ
  db : ℚ
  total : ℚ
deriving DecidableEq

/-- main.py `price_cmd` monthly math: each written column is the 2-decimal
rendering of a component the pricing helpers already rounded to cents (the
db component is the f-string rounding of the accumulated db monthly cost),
and `monthly_total_usd = f"{sum(parts):.2f}"` over the five parsed-back
components. -/
def price_row_items (compute_price : Option ℚ) (hours ebs_gb : ℚ) (ebs_type : String)
    (s3_gb : ℚ) (network_profile : String) (db_monthly : ℚ) : PricedLineItems :=
  let c := monthly_compute_cost compute_price hours
  let e := monthly_ebs_cost ebs_gb ebs_type
  let s := monthly_s3_cost s3_gb
  let n := monthly_network_cost network_profile
  let d := round2 db_monthly
  ⟨c, e, s, n, d, round2 (c + e + s + n + d)⟩

/-! ## pricing.py: Azure pricing

The live Retail-Prices lookup (`_azure_live_compute_hourly`) and the
user-override file (`_azure_price_override`) are external collaborators
(network / local JSON); they enter as parameters.  With region, SKU and OS
fixed, the override is a function of the license token. -/

/-- pricing.py `azure_vm_price_hourly`: live price, then override, then the
heuristic base + OS uplift + 0.01 license uplift unless BYOL. -/
def azure_vm_price_hourly (live : Option ℚ) (override : String → Option ℚ)
    (os_name license_model : String) : ℚ :=
  match live with
  | some p => p
  | none =>
    match override license_model with
    | some o => o
    | none =>
      let uplift := (AZ_OS_UPLIFT.lookup (py_lower (py_strip os_name))).getD 0
      let uplift2 := if py_lower (py_strip license_model) == "byol" then uplift
        else uplift + mkRat 1 100
      AZ_BASE_DEFAULT_HOURLY + uplift2

/-- A row of the optional `prices/azure_sql_prices.json` override file. -/
structure AzureSqlOverride where
  deployment : String
  region : String
  tier : String
  family : String
  vcores : ℚ
  license_model : String
  hourly : ℚ
  storage_gb_month : ℚ

/-- pricing.py `monthly_azure_sql_cost`: override match first, else
`vcores × base × tier multiplier × (AHUB discount) × hours + storage`.
The override file is external input and enters as a parameter. -/
def monthly_azure_sql_cost (overrides : List AzureSqlOverride)
    (deployment region tier family : String) (vcores storage_gb : ℚ)
    (license_model : String) (hours : ℚ) (use_overrides : Bool) : ℚ :=
  let dep := py_lower (py_strip (if deployment = "" then "single" else deployment))
  let reg := py_lower (py_strip (if region = "" then "eastus" else region))
  let tier_norm := py_strip (if tier = "" then "GeneralPurpose" else tier)
  let fam := py_strip family
  let lic := py_upper (py_strip (if license_model = "" then "LicenseIncluded" else license_model))
  let matched :=
    if use_overrides && !overrides.isEmpty then
      overrides.find? (fun r =>
        py_lower r.deployment == dep && py_lower (py_strip r.region) == reg &&
        r.tier == tier_norm && py_upper (py_strip r.license_model) == lic &&
        r.vcores == vcores && py_strip r.family == fam)
    else none
  match matched with
  | some r => round2 (r.hourly * hours + max 0 storage_gb * r.storage_gb_month)
  | none =>
    let base := if dep == "mi" then AZSQL_MI_VCORE_HOURLY_GP else AZSQL_DB_VCORE_HOURLY_GP
    let lt := py_lower (py_replace tier_norm "_" "")
    let mult :=
      if lt == "businesscritical" || lt == "bc" then AZSQL_BC_MULTIPLIER
      else if lt == "hyperscale" || lt == "hs" then AZSQL_HS_MULTIPLIER
      else 1
    let compute_hourly := vcores * base * mult
    let compute_hourly2 :=
      if lic == "AHUB" then compute_hourly * (1 - AZSQL_AHUB_DISCOUNT) else compute_hourly
    round2 (compute_hourly2 * hours + max 0 storage_gb * AZSQL_STORAGE_GB_MONTH)

/-! ## main.py price_cmd: single-cloud gate -/

/-- main.py `cloud_from_str`. -/
def cloud_from_str (s : Option String) : String :=
  let t := py_lower (py_strip (s.getD ""))
  if t == "azure" || t == "az" then "azure" else "aws"

/-- The per-row cloud tag of main.py price_cmd line 558:
`str(r.get("cloud", "")).strip().lower()` (absent cell defaults to ""). -/
def price_cloud_tag (r : Row) : String :=
  match r "cloud" with
  | .none => ""
  | v => py_lower (py_strip (pyStr v))

/-- main.py `price_cmd` up to the per-row pricing loop (lines 553-566 and
687-836): empty-input check, then the single-cloud gate over the set of
non-empty row cloud tags, and only then per-row pricing.  The per-row
pricing function (which consults external price services) enters as a
parameter. -/
def price_cmd_run (expected_cloud : String) (rows : List Row)
    (price_fn : Row → PricedLineItems) : Except String (List PricedLineItems) :=
  if rows.isEmpty then .error "Input file has no rows."
  else
    let seen := ((rows.map price_cloud_tag).dedup).erase ""
    if seen ≠ [] ∧ (1 < seen.length ∨ seen.head? ≠ some expected_cloud) then
      .error ("This price run is for --cloud " ++ expected_cloud ++
        ", but the file contains cloud=" ++ py_join ", " (py_sorted py_str_le seen) ++
        ". Price with the matching --cloud or re-run recommend for a single cloud.")
    else .ok (rows.map price_fn)

-- ===================== THEOREMS =====================

theorem charListLe_refl (l : List Char) : charListLe l l = true := by
  induction l with
  | nil => rfl
  | cons a as ih => simp [charListLe, ih]

theorem charListLe_total (a b : List Char) : charListLe a b || charListLe b a := by
  induction a generalizing b with
  | nil => simp [charListLe]
  | cons x xs ih =>
    cases b with
    | nil => simp [charListLe]
    | cons y ys =>
      by_cases h1 : x.toNat < y.toNat
      · simp [charListLe, h1]
      · by_cases h2 : y.toNat < x.toNat
        · simp [charListLe, h1, h2]
        · simp [charListLe, h1, h2, ih ys]

theorem charListLe_trans {a b c : List Char} (h1 : charListLe a b = true)
    (h2 : charListLe b c = true) : charListLe a c = true := by
  induction a generalizing b c with
  | nil => rfl
  | cons x xs ih =>
    cases b with
    | nil => simp [charListLe] at h1
    | cons y ys =>
      cases c with
      | nil => simp [charListLe] at h2
      | cons z zs =>
        simp only [charListLe] at h1 h2 ⊢
        by_cases hxy : x.toNat < y.toNat
        · by_cases hyz : y.toNat < z.toNat
          · have : x.toNat < z.toNat := Nat.lt_trans hxy hyz
            simp [this]
          · by_cases hzy : z.toNat < y.toNat
            · simp [hyz, hzy] at h2
            · have hyzeq : y.toNat = z.toNat := Nat.le_antisymm (Nat.le_of_not_lt hzy) (Nat.le_of_not_lt hyz)
              have : x.toNat < z.toNat := hyzeq ▸ hxy
              simp [this]
        · by_cases hyx : y.toNat < x.toNat
          · simp [hxy, hyx] at h1
          · by_cases hyz : y.toNat < z.toNat
            · have : x.toNat < z.toNat := by omega
              simp [this]
            · by_cases hzy : z.toNat < y.toNat
              · simp [hyz, hzy] at h2
              · have e1 : ¬ x.toNat < z.toNat := by omega
                have e2 : ¬ z.toNat < x.toNat := by omega
                rw [if_neg hxy, if_neg hyx] at h1
                rw [if_neg hyz, if_neg hzy] at h2
                rw [if_neg e1, if_neg e2]
                exact ih h1 h2

theorem py_str_le_refl (a : String) : py_str_le a a = true := charListLe_refl _

theorem py_str_le_total (a b : String) : py_str_le a b || py_str_le b a :=
  charListLe_total _ _

theorem py_str_le_trans {a b c : String} (h1 : py_str_le a b = true)
    (h2 : py_str_le b c = true) : py_str_le a c = true :=
  charListLe_trans h1 h2

theorem round2_eq (q : ℚ) : round2 q = ((⌊q * 100 + 1/2⌋ : ℤ) : ℚ) / 100 := by
  rw [round2, Rat.mkRat_eq_div]
  have key : q * 100 + 1/2 = (((200 * q.num + (q.den : ℤ)) : ℤ) : ℚ) / (((2 * q.den : ℕ)) : ℚ) := by
    have h : ((q.num : ℚ)) / (q.den : ℚ) = q := Rat.num_div_den q
    set n := q.num with hn
    set d := q.den with hd
    have hd0 : ((d : ℚ)) ≠ 0 := by
      rw [hd]
      exact_mod_cast q.den_ne_zero
    rw [← h]
    push_cast
    field_simp
    ring
  rw [key, Rat.floor_intCast_div_natCast]
  norm_num

theorem round2_mono {q r : ℚ} (h : q ≤ r) : round2 q ≤ round2 r := by
  rw [round2_eq, round2_eq]
  have : (⌊q * 100 + 1/2⌋ : ℤ) ≤ ⌊r * 100 + 1/2⌋ := by
    apply Int.floor_le_floor
    nlinarith
  have hc : ((⌊q * 100 + 1/2⌋ : ℤ) : ℚ) ≤ ((⌊r * 100 + 1/2⌋ : ℤ) : ℚ) := by exact_mod_cast this
  linarith

theorem round2_cent (k : ℤ) : round2 ((k : ℚ) / 100) = (k : ℚ) / 100 := by
  rw [round2_eq]
  have h1 : ((k : ℚ) / 100) * 100 + 1/2 = (k : ℚ) + 1/2 := by
    field_simp
  rw [h1]
  have h2 : (⌊(k : ℚ) + 1/2⌋ : ℤ) = k := by
    rw [Int.floor_eq_iff]
    constructor
    · linarith
    · have : ((k : ℚ) + 1 : ℚ) = ((k + 1 : ℤ) : ℚ) := by push_cast; ring
      norm_num
  rw [h2]

theorem round2_is_cent (q : ℚ) : ∃ k : ℤ, round2 q = (k : ℚ) / 100 :=
  ⟨⌊q * 100 + 1/2⌋, round2_eq q⟩

theorem norm_str_of_missing {v : Value} (h : is_missing v = true) : norm_str v = none := by
  simp [norm_str, h]

theorem to_float_pos_of_missing {v : Value} (h : is_missing v = true) : to_float_pos v = none := by
  simp [to_float_pos, h]

theorem key3_le_total (a b : ℤ × ℚ × String) : key3_le a b || key3_le b a := by
  simp only [key3_le, Bool.or_eq_true, decide_eq_true_eq]
  rcases lt_trichotomy a.1 b.1 with h | h | h
  · exact Or.inl (Or.inl h)
  · rcases lt_trichotomy a.2.1 b.2.1 with h2 | h2 | h2
    · exact Or.inl (Or.inr ⟨h, Or.inl h2⟩)
    · have hst := py_str_le_total a.2.2 b.2.2
      rw [Bool.or_eq_true] at hst
      rcases hst with hs | hs
      · exact Or.inl (Or.inr ⟨h, Or.inr ⟨h2, hs⟩⟩)
      · exact Or.inr (Or.inr ⟨h.symm, Or.inr ⟨h2.symm, hs⟩⟩)
    · exact Or.inr (Or.inr ⟨h.symm, Or.inl h2⟩)
  · exact Or.inr (Or.inl h)

theorem key3_le_trans {a b c : ℤ × ℚ × String} (h1 : key3_le a b = true)
    (h2 : key3_le b c = true) : key3_le a c = true := by
  simp only [key3_le, decide_eq_true_eq] at h1 h2 ⊢
  rcases h1 with h1 | ⟨e1, h1⟩
  · rcases h2 with h2 | ⟨e2, h2⟩
    · exact Or.inl (h1.trans h2)
    · exact Or.inl (e2 ▸ h1)
  · rcases h2 with h2 | ⟨e2, h2⟩
    · exact Or.inl (e1.symm ▸ h2)
    · refine Or.inr ⟨e1.trans e2, ?_⟩
      rcases h1 with h1 | ⟨f1, h1⟩
      · rcases h2 with h2 | ⟨f2, h2⟩
        · exact Or.inl (h1.trans h2)
        · exact Or.inl (f2 ▸ h1)
      · rcases h2 with h2 | ⟨f2, h2⟩
        · exact Or.inl (f1.symm ▸ h2)
        · exact Or.inr ⟨f1.trans f2, py_str_le_trans h1 h2⟩

theorem keym_le_total (a b : ℚ × ℤ × String) : keym_le a b || keym_le b a := by
  simp only [keym_le, Bool.or_eq_true, decide_eq_true_eq]
  rcases lt_trichotomy a.1 b.1 with h | h | h
  · exact Or.inl (Or.inl h)
  · rcases lt_trichotomy a.2.1 b.2.1 with h2 | h2 | h2
    · exact Or.inl (Or.inr ⟨h, Or.inl h2⟩)
    · have hst := py_str_le_total a.2.2 b.2.2
      rw [Bool.or_eq_true] at hst
      rcases hst with hs | hs
      · exact Or.inl (Or.inr ⟨h, Or.inr ⟨h2, hs⟩⟩)
      · exact Or.inr (Or.inr ⟨h.symm, Or.inr ⟨h2.symm, hs⟩⟩)
    · exact Or.inr (Or.inr ⟨h.symm, Or.inl h2⟩)
  · exact Or.inr (Or.inl h)

theorem keym_le_trans {a b c : ℚ × ℤ × String} (h1 : keym_le a b = true)
    (h2 : keym_le b c = true) : keym_le a c = true := by
  simp only [keym_le, decide_eq_true_eq] at h1 h2 ⊢
  rcases h1 with h1 | ⟨e1, h1⟩
  · rcases h2 with h2 | ⟨e2, h2⟩
    · exact Or.inl (h1.trans h2)
    · exact Or.inl (e2 ▸ h1)
  · rcases h2 with h2 | ⟨e2, h2⟩
    · exact Or.inl (e1.symm ▸ h2)
    · refine Or.inr ⟨e1.trans e2, ?_⟩
      rcases h1 with h1 | ⟨f1, h1⟩
      · rcases h2 with h2 | ⟨f2, h2⟩
        · exact Or.inl (h1.trans h2)
        · exact Or.inl (f2 ▸ h1)
      · rcases h2 with h2 | ⟨f2, h2⟩
        · exact Or.inl (f1.symm ▸ h2)
        · exact Or.inr ⟨f1.trans f2, py_str_le_trans h1 h2⟩

theorem key4_le_total (a b : ℕ × ℤ × ℚ × String) : key4_le a b || key4_le b a := by
  simp only [key4_le, Bool.or_eq_true, decide_eq_true_eq]
  rcases lt_trichotomy a.1 b.1 with h | h | h
  · exact Or.inl (Or.inl h)
  · have h3t := key3_le_total a.2 b.2
    rw [Bool.or_eq_true] at h3t
    rcases h3t with h3 | h3
    · simp only [key3_le, decide_eq_true_eq] at h3
      exact Or.inl (Or.inr ⟨h, h3⟩)
    · simp only [key3_le, decide_eq_true_eq] at h3
      exact Or.inr (Or.inr ⟨h.symm, h3⟩)
  · exact Or.inr (Or.inl h)

theorem key4_le_trans {a b c : ℕ × ℤ × ℚ × String} (h1 : key4_le a b = true)
    (h2 : key4_le b c = true) : key4_le a c = true := by
  simp only [key4_le, decide_eq_true_eq] at h1 h2 ⊢
  rcases h1 with h1 | ⟨e1, h1⟩
  · rcases h2 with h2 | ⟨e2, h2⟩
    · exact Or.inl (h1.trans h2)
    · exact Or.inl (e2 ▸ h1)
  · rcases h2 with h2 | ⟨e2, h2⟩
    · exact Or.inl (e1.symm ▸ h2)
    · refine Or.inr ⟨e1.trans e2, ?_⟩
      have h1' : key3_le a.2 b.2 = true := by
        simp only [key3_le, decide_eq_true_eq]; exact h1
      have h2' : key3_le b.2 c.2 = true := by
        simp only [key3_le, decide_eq_true_eq]; exact h2
      have := key3_le_trans h1' h2'
      simp only [key3_le, decide_eq_true_eq] at this
      exact this

theorem py_sorted_head_min {α : Type} (le : α → α → Bool)
    (htrans : ∀ a b c, le a b = true → le b c = true → le a c = true)
    (htotal : ∀ a b, le a b || le b a)
    (l : List α) {s : α} {rest : List α}
    (h : py_sorted le l = s :: rest) :
    s ∈ l ∧ ∀ t ∈ l, le s t = true := by
  haveI : IsTotal α (fun a b => le a b = true) := by
    constructor
    intro a b
    have := htotal a b
    rw [Bool.or_eq_true] at this
    exact this
  haveI : IsTrans α (fun a b => le a b = true) := by
    constructor
    intro a b c
    exact htrans a b c
  have hperm := List.perm_insertionSort (fun a b => le a b = true) l
  have hsorted := List.sorted_insertionSort (fun a b => le a b = true) l
  rw [py_sorted] at h
  rw [h] at hperm hsorted
  refine ⟨hperm.subset (List.mem_cons_self _ _), ?_⟩
  intro t ht
  have ht' : t ∈ s :: rest := (hperm.mem_iff).mpr ht
  rcases List.mem_cons.mp ht' with rfl | htail
  · have := htotal t t
    simpa using this
  · exact (List.pairwise_cons.mp hsorted).1 t htail

theorem py_sorted_filter_cons_of_mem {α : Type} (le : α → α → Bool)
    {l : List α} {p : α → Bool} {t : α} (ht : t ∈ l) (hp : p t = true) :
    ∃ s rest, py_sorted le (l.filter p) = s :: rest := by
  have hmem : t ∈ py_sorted le (l.filter p) :=
    ((List.perm_insertionSort _ _).mem_iff).mpr (List.mem_filter.mpr ⟨ht, hp⟩)
  cases h : py_sorted le (l.filter p) with
  | nil => rw [h] at hmem; simp at hmem
  | cons s rest => exact ⟨s, rest, rfl⟩

theorem py_sorted_filter_nil_of_none {α : Type} (le : α → α → Bool)
    {l : List α} {p : α → Bool} (h : ∀ t ∈ l, p t = false) :
    py_sorted le (l.filter p) = [] := by
  cases hm : py_sorted le (l.filter p) with
  | nil => rfl
  | cons s rest =>
    have hs : s ∈ py_sorted le (l.filter p) := by
      rw [hm]; exact List.mem_cons_self _ _
    have := List.mem_filter.mp (((List.perm_insertionSort _ _).mem_iff).mp hs)
    rw [h s this.1] at this
    exact absurd this.2 (by simp)

theorem pick_instance_spec {catalog : List Shape} {profile : String} {v : ℤ} {m : ℚ}
    {s : Shape} (h : pick_instance catalog profile v m = some s) :
    s ∈ catalog ∧ qualifies v m s = true ∧
      ∀ t ∈ catalog, qualifies v m t = true →
        key4_le (aws_sort_key (families_for profile) s)
                (aws_sort_key (families_for profile) t) = true := by
  simp only [pick_instance] at h
  cases hm : py_sorted
      (fun a b => key4_le (aws_sort_key (families_for profile) a)
        (aws_sort_key (families_for profile) b)) (catalog.filter (qualifies v m)) with
  | nil => rw [hm] at h; simp at h
  | cons s0 rest =>
    rw [hm] at h
    simp only [Option.some.injEq] at h
    subst h
    obtain ⟨hmem, hmin⟩ := py_sorted_head_min
      (fun a b => key4_le (aws_sort_key (families_for profile) a)
        (aws_sort_key (families_for profile) b))
      (by intro a b c hab hbc; exact key4_le_trans hab hbc)
      (by intro a b; exact key4_le_total _ _) (catalog.filter (qualifies v m)) hm
    have hf := List.mem_filter.mp hmem
    refine ⟨hf.1, hf.2, ?_⟩
    intro t htl htq
    exact hmin t (List.mem_filter.mpr ⟨htl, htq⟩)

theorem pick_instance_of_mem {catalog : List Shape} {profile : String} {v : ℤ} {m : ℚ}
    {t : Shape} (ht : t ∈ catalog) (hq : qualifies v m t = true) :
    ∃ s, pick_instance catalog profile v m = some s := by
  simp only [pick_instance]
  obtain ⟨s, rest, hsr⟩ := py_sorted_filter_cons_of_mem _ ht hq
  rw [hsr]
  exact ⟨s, rfl⟩

theorem pick_instance_none {catalog : List Shape} {profile : String} {v : ℤ} {m : ℚ}
    (h : ∀ t ∈ catalog, qualifies v m t = false) :
    pick_instance catalog profile v m = none := by
  simp only [pick_instance]
  rw [py_sorted_filter_nil_of_none _ h]

theorem pick_azure_size_spec {catalog : List Shape} {v : ℤ} {m : ℚ}
    {s : Shape} (h : pick_azure_size catalog v m = some s) :
    s ∈ catalog ∧ qualifies v m s = true ∧
      ∀ t ∈ catalog, qualifies v m t = true →
        key3_le (s.vcpu, s.memory_gib, s.instanceType)
                (t.vcpu, t.memory_gib, t.instanceType) = true := by
  simp only [pick_azure_size] at h
  cases hm : py_sorted
      (fun a b => key3_le (a.vcpu, a.memory_gib, a.instanceType)
        (b.vcpu, b.memory_gib, b.instanceType)) (catalog.filter (qualifies v m)) with
  | nil => rw [hm] at h; simp at h
  | cons s0 rest =>
    rw [hm] at h
    simp only [Option.some.injEq] at h
    subst h
    obtain ⟨hmem, hmin⟩ := py_sorted_head_min
      (fun a b => key3_le (a.vcpu, a.memory_gib, a.instanceType)
        (b.vcpu, b.memory_gib, b.instanceType))
      (by intro a b c hab hbc; exact key3_le_trans hab hbc)
      (by intro a b; exact key3_le_total _ _) (catalog.filter (qualifies v m)) hm
    have hf := List.mem_filter.mp hmem
    refine ⟨hf.1, hf.2, ?_⟩
    intro t htl htq
    exact hmin t (List.mem_filter.mpr ⟨htl, htq⟩)

theorem pick_azure_size_of_mem {catalog : List Shape} {v : ℤ} {m : ℚ}
    {t : Shape} (ht : t ∈ catalog) (hq : qualifies v m t = true) :
    ∃ s, pick_azure_size catalog v m = some s := by
  simp only [pick_azure_size]
  obtain ⟨s, rest, hsr⟩ := py_sorted_filter_cons_of_mem _ ht hq
  rw [hsr]
  exact ⟨s, rfl⟩

theorem pick_azure_size_none {catalog : List Shape} {v : ℤ} {m : ℚ}
    (h : ∀ t ∈ catalog, qualifies v m t = false) :
    pick_azure_size catalog v m = none := by
  simp only [pick_azure_size]
  rw [py_sorted_filter_nil_of_none _ h]

theorem qualifies_iff {v : ℤ} {m : ℚ} {s : Shape} :
    qualifies v m s = true ↔ v ≤ s.vcpu ∧ m ≤ s.memory_gib := by
  simp [qualifies]

/-- C1: Selector soundness and no-match distinctness.  For every catalog,
profile and pair `(min_vcpu, min_memory_gib)`: when some shape in the
catalog has enough vCPU and memory, both `pick_instance` (AWS) and
`pick_azure_size` (Azure) return `some s` with `s.vcpu ≥ min_vcpu` and
`s.memory_gib ≥ min_memory_gib`; when no shape qualifies they return the
distinct no-match outcome `none` — never a sentinel shape. -/
theorem C1_selector_soundness :
    ∀ (catalog : List Shape) (profile : String) (min_vcpu : ℤ) (min_memory_gib : ℚ),
      ((∃ t ∈ catalog, qualifies min_vcpu min_memory_gib t = true) →
        (∃ s, pick_instance catalog profile min_vcpu min_memory_gib = some s ∧
              min_vcpu ≤ s.vcpu ∧ min_memory_gib ≤ s.memory_gib) ∧
        (∃ s, pick_azure_size catalog min_vcpu min_memory_gib = some s ∧
              min_vcpu ≤ s.vcpu ∧ min_memory_gib ≤ s.memory_gib)) ∧
      ((∀ t ∈ catalog, qualifies min_vcpu min_memory_gib t = false) →
        pick_instance catalog profile min_vcpu min_memory_gib = none ∧
        pick_azure_size catalog min_vcpu min_memory_gib = none) := by
  intro catalog profile v m
  constructor
  · rintro ⟨t, ht, hq⟩
    constructor
    · obtain ⟨s, hs⟩ := @pick_instance_of_mem catalog profile v m t ht hq
      have hspec := pick_instance_spec hs
      exact ⟨s, hs, qualifies_iff.mp hspec.2.1⟩
    · obtain ⟨s, hs⟩ := pick_azure_size_of_mem ht hq
      have hspec := pick_azure_size_spec hs
      exact ⟨s, hs, qualifies_iff.mp hspec.2.1⟩
  · intro h
    exact ⟨pick_instance_none h, pick_azure_size_none h⟩

/-- Witness for C1 at a concrete catalog: `(4, 16)` has a qualifying shape
and both selectors return a sufficient one; `(100, 16)` has none and both
selectors return `none`. -/
theorem C1_selector_soundness_witness :
    (∃ t ∈ catW, qualifies 4 16 t = true) ∧
    ((∃ s, pick_instance catW "balanced" 4 16 = some s ∧
           4 ≤ s.vcpu ∧ (16 : ℚ) ≤ s.memory_gib) ∧
     (∃ s, pick_azure_size catW 4 16 = some s ∧
           4 ≤ s.vcpu ∧ (16 : ℚ) ≤ s.memory_gib)) ∧
    (∀ t ∈ catW, qualifies 100 16 t = false) ∧
    (pick_instance catW "balanced" 100 16 = none ∧
     pick_azure_size catW 100 16 = none) := by
  refine ⟨by decide, (C1_selector_soundness catW "balanced" 4 16).1 (by decide),
          by decide, (C1_selector_soundness catW "balanced" 100 16).2 (by decide)⟩

/-- C5: Selector ordering and determinism.  A shape returned by
`pick_instance` is a qualifying member of the catalog that is least — under
the Python sort key `(family preference rank, vCPU, memory, identifier)`
with its lexicographic identifier tie-break — among all qualifying
candidates; and repeated calls with identical inputs return the identical
shape (in the pure embedding this determinism is definitional). -/
theorem C5_selector_ordering :
    ∀ (catalog : List Shape) (profile : String) (v : ℤ) (m : ℚ) (s : Shape),
      pick_instance catalog profile v m = some s →
      (s ∈ catalog ∧ qualifies v m s = true ∧
        ∀ t ∈ catalog, qualifies v m t = true →
          key4_le (aws_sort_key (families_for profile) s)
                  (aws_sort_key (families_for profile) t) = true) ∧
      pick_instance catalog profile v m = pick_instance catalog profile v m := by
  intro catalog profile v m s h
  exact ⟨pick_instance_spec h, rfl⟩

/-- Witness for C5: on the concrete catalog, `pick_instance` returns
`m6i.xlarge`, a qualifying member least under the sort key. -/
theorem C5_selector_ordering_witness :
    pick_instance catW "balanced" 4 16 = some ⟨"m6i.xlarge", 4, 16⟩ ∧
    (⟨"m6i.xlarge", 4, 16⟩ : Shape) ∈ catW ∧
    key4_le (aws_sort_key (families_for "balanced") ⟨"m6i.xlarge", 4, 16⟩)
            (aws_sort_key (families_for "balanced") ⟨"m6i.2xlarge", 8, 32⟩) = true := by
  have hp : pick_instance catW "balanced" 4 16 = some ⟨"m6i.xlarge", 4, 16⟩ := by decide
  have h := (C5_selector_ordering catW "balanced" 4 16 ⟨"m6i.xlarge", 4, 16⟩ hp).1
  exact ⟨hp, h.1, h.2.2 _ (by decide) (by decide)⟩

/-- C10 (implicit): Azure size selection ignores the sizing profile.
`pick_azure_size` takes no profile argument, so the Azure branch of
`recommend_row` chooses the same shape for any two profile values; the
Azure ordering is by `(vCPU, memory, identifier)` only, and the
family-preference ranking is applied only on the AWS selection path. -/
theorem C10_azure_profile_independence :
    ∀ (catalog : List Shape) (v : ℤ) (m : ℚ) (p₁ p₂ : String),
      recommend_choose "azure" catalog p₁ v m = recommend_choose "azure" catalog p₂ v m ∧
      recommend_choose "azure" catalog p₁ v m = pick_azure_size catalog v m ∧
      recommend_choose "aws" catalog p₁ v m = pick_instance catalog p₁ v m ∧
      (∀ s, pick_azure_size catalog v m = some s →
        s ∈ catalog ∧ qualifies v m s = true ∧
        ∀ t ∈ catalog, qualifies v m t = true →
          key3_le (s.vcpu, s.memory_gib, s.instanceType)
                  (t.vcpu, t.memory_gib, t.instanceType) = true) := by
  intro catalog v m p₁ p₂
  exact ⟨rfl, rfl, rfl, fun s hs => pick_azure_size_spec hs⟩

/-- Witness for C10: two different profiles produce the same Azure choice
on a concrete catalog, and the chosen size is the `(vCPU, memory, id)`-least
qualifying one. -/
theorem C10_azure_profile_independence_witness :
    recommend_choose "azure" catW "compute" 4 16 = recommend_choose "azure" catW "memory" 4 16 ∧
    pick_azure_size catW 4 16 = some ⟨"m6i.xlarge", 4, 16⟩ ∧
    (⟨"m6i.xlarge", 4, 16⟩ : Shape) ∈ catW := by
  have h := C10_azure_profile_independence catW 4 16 "compute" "memory"
  have hp : pick_azure_size catW 4 16 = some ⟨"m6i.xlarge", 4, 16⟩ := by decide
  exact ⟨h.1, hp, (h.2.2.2 _ hp).1⟩

theorem tier_a_presence_spec (c r : Value) :
    ∀ i ∈ tier_a_presence c r, i.level = "error" ∧ (i.field = "cloud" ∨ i.field = "region") := by
  intro i hi
  unfold tier_a_presence at hi
  rcases List.mem_append.mp hi with h | h <;> split_ifs at h <;> simp_all

theorem cloud_invalid_spec (cl : Option String) (craw : Value) :
    ∀ i ∈ cloud_invalid_issues cl craw, i.level = "error" ∧ i.field = "cloud" := by
  intro i hi
  cases cl with
  | none => simp [cloud_invalid_issues] at hi
  | some c =>
    simp only [cloud_invalid_issues] at hi
    split_ifs at hi <;> simp_all

theorem region_issue_spec (cl : Option String) (rv : Value) :
    ∀ i ∈ validate_region_for_cloud cl rv, i.field = "region" := by
  intro i hi
  unfold validate_region_for_cloud at hi
  cases hn : norm_str rv with
  | none => rw [hn] at hi; simp at hi
  | some r =>
    rw [hn] at hi
    simp only at hi
    split_ifs at hi <;> simp_all

theorem capacity_issues_spec (vv mv : Value) :
    ∀ i ∈ capacity_issues vv mv, i.level = "error" ∧ i.field = "vcpu|memory_gib" := by
  intro i hi
  unfold capacity_issues at hi
  split_ifs at hi <;> simp_all

theorem tier_a_issues_fields (cv rv : Value) :
    ∀ i ∈ tier_a_issues cv rv, i.field = "cloud" ∨ i.field = "region" := by
  intro i hi
  unfold tier_a_issues at hi
  rcases List.mem_append.mp hi with h | h
  · rcases List.mem_append.mp h with h' | h'
    · exact (tier_a_presence_spec cv rv i h').2
    · exact Or.inl (cloud_invalid_spec _ cv i h').2
  · exact Or.inr (region_issue_spec _ rv i h)

theorem pre_b_issues_fields (cv rv vv mv : Value) :
    ∀ i ∈ pre_b_issues cv rv vv mv,
      i.field = "cloud" ∨ i.field = "region" ∨ i.field = "vcpu|memory_gib" := by
  intro i hi
  unfold pre_b_issues at hi
  rcases List.mem_append.mp hi with h | h
  · rcases tier_a_issues_fields cv rv i h with h' | h'
    · exact Or.inl h'
    · exact Or.inr (Or.inl h')
  · exact Or.inr (Or.inr (capacity_issues_spec vv mv i h).2)

theorem region_gate_of_region_error {cv rv : Value}
    (h : ∃ i ∈ validate_region_for_cloud (norm_str cv) rv, i.level = "error") :
    (tier_a_issues cv rv).any is_region_error = true := by
  obtain ⟨i, hi, hlev⟩ := h
  have hf := region_issue_spec (norm_str cv) rv i hi
  refine List.any_eq_true.mpr ⟨i, ?_, ?_⟩
  · exact List.mem_append.mpr (Or.inr hi)
  · simp [is_region_error, hlev, hf]

theorem region_gate_of_missing_region {cv rv : Value} (h : is_missing rv = true) :
    (tier_a_issues cv rv).any is_region_error = true := by
  have hmem : (⟨"error", "region", "missing", "Provide region."⟩ : Issue) ∈ tier_a_presence cv rv := by
    unfold tier_a_presence
    refine List.mem_append.mpr (Or.inr ?_)
    rw [if_pos h]
    exact List.mem_singleton.mpr rfl
  refine List.any_eq_true.mpr
    ⟨⟨"error", "region", "missing", "Provide region."⟩, ?_, ?_⟩
  · exact List.mem_append.mpr (Or.inl (List.mem_append.mpr (Or.inl hmem)))
  · simp [is_region_error]

theorem mem_tier_a_of_presence {cv rv : Value} {i : Issue}
    (h : i ∈ tier_a_presence cv rv) : i ∈ tier_a_issues cv rv := by
  unfold tier_a_issues
  exact List.mem_append.mpr (Or.inl (List.mem_append.mpr (Or.inl h)))

theorem mem_tier_a_of_cloud_invalid {cv rv : Value} {i : Issue}
    (h : i ∈ cloud_invalid_issues (norm_str cv) cv) : i ∈ tier_a_issues cv rv := by
  unfold tier_a_issues
  exact List.mem_append.mpr (Or.inl (List.mem_append.mpr (Or.inr h)))

theorem mem_pre_b_of_tier_a {cv rv vv mv : Value} {i : Issue}
    (h : i ∈ tier_a_issues cv rv) : i ∈ pre_b_issues cv rv vv mv := by
  unfold pre_b_issues
  exact List.mem_append.mpr (Or.inl h)

theorem mem_pre_b_of_capacity {cv rv vv mv : Value} {i : Issue}
    (h : i ∈ capacity_issues vv mv) : i ∈ pre_b_issues cv rv vv mv := by
  unfold pre_b_issues
  exact List.mem_append.mpr (Or.inr h)

theorem missing_cloud_issue_mem {cv rv : Value} (h : is_missing cv = true) :
    (⟨"error", "cloud", "missing", "Provide cloud."⟩ : Issue) ∈ tier_a_issues cv rv := by
  refine mem_tier_a_of_presence ?_
  unfold tier_a_presence
  refine List.mem_append.mpr (Or.inl ?_)
  rw [if_pos h]
  exact List.mem_singleton.mpr rfl

/-- C3: Validator tier ordering and region short-circuit.  (a) Any Tier A
error condition — missing cloud or region, invalid cloud enum, region-level
error, or no usable capacity — yields `status = "error"`,
`blocking_for = "recommendation"`, and the issue list touches only the
Tier A fields (no Tier B issue is ever produced alongside an error);
(b) a region-level error is terminal: the result is an error whose issues
never include the capacity check's `vcpu|memory_gib` field;
(c) a row missing both `cloud` and `os` is classified `error`, never
`rec_only`. -/
theorem C3_tier_ordering :
    ∀ row : Row,
      ((is_missing (row "cloud") = true ∨ is_missing (row "region") = true ∨
        (∃ c, norm_str (row "cloud") = some c ∧
          ["aws", "azure"].contains (py_lower c) = false) ∨
        (∃ i ∈ validate_region_for_cloud (norm_str (row "cloud")) (row "region"),
          i.level = "error") ∨
        ((to_float_pos (row "vcpu")).isNone = true ∧
         (to_float_pos (row "memory_gib")).isNone = true)) →
        (validate_row row).status = "error" ∧
        (validate_row row).blocking_for = "recommendation" ∧
        ∀ i ∈ (validate_row row).issues,
          i.field = "cloud" ∨ i.field = "region" ∨ i.field = "vcpu|memory_gib") ∧
      ((∃ i ∈ validate_region_for_cloud (norm_str (row "cloud")) (row "region"),
          i.level = "error") →
        (validate_row row).status = "error" ∧
        ∀ i ∈ (validate_row row).issues, i.field ≠ "vcpu|memory_gib") ∧
      (is_missing (row "cloud") = true → is_missing (row "os") = true →
        (validate_row row).status = "error" ∧ (validate_row row).status ≠ "rec_only") := by
  intro row
  refine ⟨?_, ?_, ?_⟩
  · intro h
    by_cases hg1 : (tier_a_issues (row "cloud") (row "region")).any is_region_error = true
    · have e1 : validate_row row =
          ⟨"error", "recommendation", tier_a_issues (row "cloud") (row "region")⟩ := by
        unfold validate_row validateFields
        rw [if_pos hg1]
      rw [e1]
      refine ⟨rfl, rfl, ?_⟩
      intro i hi
      rcases tier_a_issues_fields _ _ i hi with h' | h'
      · exact Or.inl h'
      · exact Or.inr (Or.inl h')
    · have hg2 : (pre_b_issues (row "cloud") (row "region") (row "vcpu")
          (row "memory_gib")).any is_error_issue = true := by
        rcases h with hmc | hmr | ⟨c, hc, hinv⟩ | hreg | ⟨hvc, hmg⟩
        · exact List.any_eq_true.mpr
            ⟨⟨"error", "cloud", "missing", "Provide cloud."⟩,
             mem_pre_b_of_tier_a (missing_cloud_issue_mem hmc), by simp [is_error_issue]⟩
        · exact absurd (region_gate_of_missing_region hmr) hg1
        · have hmem : (⟨"error", "cloud", "invalid " ++ pyStr (row "cloud"),
              "Use one of: aws, azure"⟩ : Issue) ∈
                cloud_invalid_issues (norm_str (row "cloud")) (row "cloud") := by
            rw [hc]
            simp only [cloud_invalid_issues]
            rw [hinv]
            simp
          exact List.any_eq_true.mpr
            ⟨_, mem_pre_b_of_tier_a (mem_tier_a_of_cloud_invalid hmem), by simp [is_error_issue]⟩
        · exact absurd (region_gate_of_region_error hreg) hg1
        · have hmem : (⟨"error", "vcpu|memory_gib", "both missing or non-positive",
              "Provide vcpu (>0), memory_gib (>0), or both."⟩ : Issue) ∈
                capacity_issues (row "vcpu") (row "memory_gib") := by
            simp [capacity_issues, hvc, hmg]
          exact List.any_eq_true.mpr
            ⟨_, mem_pre_b_of_capacity hmem, by simp [is_error_issue]⟩
      have e2 : validate_row row = ⟨"error", "recommendation",
          pre_b_issues (row "cloud") (row "region") (row "vcpu") (row "memory_gib")⟩ := by
        unfold validate_row validateFields
        rw [if_neg hg1, if_pos hg2]
      rw [e2]
      exact ⟨rfl, rfl, pre_b_issues_fields _ _ _ _⟩
  · intro hreg
    have hg1 := region_gate_of_region_error hreg
    have e1 : validate_row row =
        ⟨"error", "recommendation", tier_a_issues (row "cloud") (row "region")⟩ := by
      unfold validate_row validateFields
      rw [if_pos hg1]
    rw [e1]
    refine ⟨rfl, ?_⟩
    intro i hi
    rcases tier_a_issues_fields _ _ i hi with h' | h' <;> simp [h']
  · intro hmc _hos
    by_cases hg1 : (tier_a_issues (row "cloud") (row "region")).any is_region_error = true
    · have e1 : validate_row row =
          ⟨"error", "recommendation", tier_a_issues (row "cloud") (row "region")⟩ := by
        unfold validate_row validateFields
        rw [if_pos hg1]
      rw [e1]
      refine ⟨rfl, ?_⟩
      show ("error" : String) ≠ "rec_only"
      decide
    · have hg2 : (pre_b_issues (row "cloud") (row "region") (row "vcpu")
          (row "memory_gib")).any is_error_issue = true :=
        List.any_eq_true.mpr
          ⟨⟨"error", "cloud", "missing", "Provide cloud."⟩,
           mem_pre_b_of_tier_a (missing_cloud_issue_mem hmc), by simp [is_error_issue]⟩
      have e2 : validate_row row = ⟨"error", "recommendation",
          pre_b_issues (row "cloud") (row "region") (row "vcpu") (row "memory_gib")⟩ := by
        unfold validate_row validateFields
        rw [if_neg hg1, if_pos hg2]
      rw [e2]
      refine ⟨rfl, ?_⟩
      show ("error" : String) ≠ "rec_only"
      decide

/-- Witness for C3: a row missing both cloud and os errors (never
`rec_only`), and an AWS row with the Azure region `eastus` is terminally
rejected at the region gate with no capacity issue. -/
theorem C3_tier_ordering_witness :
    ((validate_row rowMissingCloudOs).status = "error" ∧
     (validate_row rowMissingCloudOs).blocking_for = "recommendation") ∧
    ((validate_row rowBadRegion).status = "error" ∧
     ∀ i ∈ (validate_row rowBadRegion).issues, i.field ≠ "vcpu|memory_gib") ∧
    (validate_row rowMissingCloudOs).status ≠ "rec_only" := by
  have h1 := (C3_tier_ordering rowMissingCloudOs).1 (Or.inl (by decide))
  have h2 := (C3_tier_ordering rowBadRegion).2.1 (by decide)
  have h3 := (C3_tier_ordering rowMissingCloudOs).2.2 (by decide) (by decide)
  exact ⟨⟨h1.1, h1.2.1⟩, h2, h3.2⟩

theorem is_missing_none_eq : is_missing Value.none = true := rfl

theorem norm_str_none_eq : norm_str Value.none = none := rfl

theorem to_float_pos_none_eq : to_float_pos Value.none = none := rfl

theorem is_missing_str {s : String}
    (h : NULLISH_STR.contains (py_lower (py_strip s)) = true) :
    is_missing (Value.str s) = true := by
  simp only [is_missing, pyStr]
  exact h

theorem tier_a_presence_cloud_missing {v : Value} (h : is_missing v = true) (r : Value) :
    tier_a_presence v r = tier_a_presence Value.none r := by
  simp [tier_a_presence, h, is_missing_none_eq]

theorem tier_a_presence_region_missing {v : Value} (h : is_missing v = true) (c : Value) :
    tier_a_presence c v = tier_a_presence c Value.none := by
  simp [tier_a_presence, h, is_missing_none_eq]

theorem cloud_invalid_none (craw : Value) : cloud_invalid_issues none craw = [] := rfl

theorem validate_region_region_missing {v : Value} (cl : Option String)
    (h : is_missing v = true) : validate_region_for_cloud cl v = [] := by
  simp only [validate_region_for_cloud, norm_str_of_missing h]

theorem validate_region_region_none (cl : Option String) :
    validate_region_for_cloud cl Value.none = [] := rfl

theorem cloud_l_of_missing {v : Value} (h : is_missing v = true) :
    cloud_l_of v = cloud_l_of Value.none := by
  simp [cloud_l_of, norm_str_of_missing h, norm_str_none_eq]

theorem capacity_vcpu_missing {v : Value} (h : is_missing v = true) (m : Value) :
    capacity_issues v m = capacity_issues Value.none m := by
  simp [capacity_issues, to_float_pos_of_missing h, to_float_pos_none_eq]

theorem capacity_mem_missing {v : Value} (h : is_missing v = true) (c : Value) :
    capacity_issues c v = capacity_issues c Value.none := by
  simp [capacity_issues, to_float_pos_of_missing h, to_float_pos_none_eq]

theorem tier_b_enum_missing {v : Value} (h : is_missing v = true)
    (f : String) (a : List String) :
    tier_b_enum_issue_for f a v = tier_b_enum_issue_for f a Value.none := by
  simp [tier_b_enum_issue_for, norm_str_of_missing h, norm_str_none_eq]

theorem missing_b_os_missing {v : Value} (h : is_missing v = true) (p g t : Value) :
    missing_b_fields v p g t = missing_b_fields Value.none p g t := by
  simp [missing_b_fields, h, is_missing_none_eq]

theorem missing_b_po_missing {v : Value} (h : is_missing v = true) (o g t : Value) :
    missing_b_fields o v g t = missing_b_fields o Value.none g t := by
  simp [missing_b_fields, h, is_missing_none_eq]

theorem missing_b_rootgb_missing {v : Value} (h : is_missing v = true) (o p t : Value) :
    missing_b_fields o p v t = missing_b_fields o p Value.none t := by
  simp [missing_b_fields, h, is_missing_none_eq]

theorem missing_b_roottype_missing {v : Value} (h : is_missing v = true) (o p g : Value) :
    missing_b_fields o p g v = missing_b_fields o p g Value.none := by
  simp [missing_b_fields, h, is_missing_none_eq]

theorem bool_toggle_missing {v : Value} (h : is_missing v = true) (f : String) :
    bool_toggle_issue_for f v = bool_toggle_issue_for f Value.none := by
  simp [bool_toggle_issue_for, h, is_missing_none_eq]

theorem vf_missing_cloud {v : Value} (h : is_missing v = true)
    (rv vv mv ov pv fv av gv tv bv hv : Value) :
    validateFields v rv vv mv ov pv fv av gv tv bv hv =
    validateFields Value.none rv vv mv ov pv fv av gv tv bv hv := by
  have hn := norm_str_of_missing h
  simp only [validateFields, tier_a_issues, pre_b_issues, all_b_issues,
    tier_a_presence_cloud_missing h, hn, norm_str_none_eq, cloud_invalid_none,
    cloud_l_of_missing h]

theorem vf_missing_region {v : Value} (h : is_missing v = true)
    (cv vv mv ov pv fv av gv tv bv hv : Value) :
    validateFields cv v vv mv ov pv fv av gv tv bv hv =
    validateFields cv Value.none vv mv ov pv fv av gv tv bv hv := by
  simp only [validateFields, tier_a_issues, pre_b_issues, all_b_issues,
    tier_a_presence_region_missing h, validate_region_region_missing _ h,
    validate_region_region_none]

theorem vf_missing_vcpu {v : Value} (h : is_missing v = true)
    (cv rv mv ov pv fv av gv tv bv hv : Value) :
    validateFields cv rv v mv ov pv fv av gv tv bv hv =
    validateFields cv rv Value.none mv ov pv fv av gv tv bv hv := by
  simp only [validateFields, pre_b_issues, all_b_issues, capacity_vcpu_missing h]

theorem vf_missing_mem {v : Value} (h : is_missing v = true)
    (cv rv vv ov pv fv av gv tv bv hv : Value) :
    validateFields cv rv vv v ov pv fv av gv tv bv hv =
    validateFields cv rv vv Value.none ov pv fv av gv tv bv hv := by
  simp only [validateFields, pre_b_issues, all_b_issues, capacity_mem_missing h]

theorem vf_missing_os {v : Value} (h : is_missing v = true)
    (cv rv vv mv pv fv av gv tv bv hv : Value) :
    validateFields cv rv vv mv v pv fv av gv tv bv hv =
    validateFields cv rv vv mv Value.none pv fv av gv tv bv hv := by
  simp only [validateFields, all_b_issues, tier_b_enum_issues,
    tier_b_enum_missing h, missing_b_os_missing h]

theorem vf_missing_po {v : Value} (h : is_missing v = true)
    (cv rv vv mv ov fv av gv tv bv hv : Value) :
    validateFields cv rv vv mv ov v fv av gv tv bv hv =
    validateFields cv rv vv mv ov Value.none fv av gv tv bv hv := by
  simp only [validateFields, all_b_issues, tier_b_enum_issues,
    tier_b_enum_missing h, missing_b_po_missing h]

theorem vf_missing_profile {v : Value} (h : is_missing v = true)
    (cv rv vv mv ov pv av gv tv bv hv : Value) :
    validateFields cv rv vv mv ov pv v av gv tv bv hv =
    validateFields cv rv vv mv ov pv Value.none av gv tv bv hv := by
  simp only [validateFields, all_b_issues, tier_b_enum_issues, tier_b_enum_missing h]

theorem vf_missing_arch {v : Value} (h : is_missing v = true)
    (cv rv vv mv ov pv fv gv tv bv hv : Value) :
    validateFields cv rv vv mv ov pv fv v gv tv bv hv =
    validateFields cv rv vv mv ov pv fv Value.none gv tv bv hv := by
  simp only [validateFields, all_b_issues, tier_b_enum_issues, tier_b_enum_missing h]

theorem vf_missing_rootgb {v : Value} (h : is_missing v = true)
    (cv rv vv mv ov pv fv av tv bv hv : Value) :
    validateFields cv rv vv mv ov pv fv av v tv bv hv =
    validateFields cv rv vv mv ov pv fv av Value.none tv bv hv := by
  simp only [validateFields, missing_b_rootgb_missing h]

theorem vf_missing_roottype {v : Value} (h : is_missing v = true)
    (cv rv vv mv ov pv fv av gv bv hv : Value) :
    validateFields cv rv vv mv ov pv fv av gv v bv hv =
    validateFields cv rv vv mv ov pv fv av gv Value.none bv hv := by
  simp only [validateFields, missing_b_roottype_missing h]

theorem vf_missing_byol {v : Value} (h : is_missing v = true)
    (cv rv vv mv ov pv fv av gv tv hv : Value) :
    validateFields cv rv vv mv ov pv fv av gv tv v hv =
    validateFields cv rv vv mv ov pv fv av gv tv Value.none hv := by
  simp only [validateFields, all_b_issues, bool_toggle_issues, bool_toggle_missing h]

theorem vf_missing_ahub {v : Value} (h : is_missing v = true)
    (cv rv vv mv ov pv fv av gv tv bv : Value) :
    validateFields cv rv vv mv ov pv fv av gv tv bv v =
    validateFields cv rv vv mv ov pv fv av gv tv bv Value.none := by
  simp only [validateFields, all_b_issues, bool_toggle_issues, bool_toggle_missing h]

/-- C7: Missingness uniformity.  For every row and every field, substituting
any string that strips-and-lowercases to a nullish token (so `""`, `"nan"`,
`"null"`, `"none"`, `"n/a"`, `"#n/a"` in any letter case) yields the
identical `ValidationResult` as substituting `None`; all missing sentinels
are treated uniformly. -/
theorem C7_missingness_uniformity :
    ∀ (row : Row) (f : String) (s : String),
      NULLISH_STR.contains (py_lower (py_strip s)) = true →
      validate_row (Row.set row f (Value.str s)) = validate_row (Row.set row f Value.none) := by
  intro row f s hs
  have h : is_missing (Value.str s) = true := is_missing_str hs
  by_cases h1 : "cloud" = f
  · subst h1; exact vf_missing_cloud h _ _ _ _ _ _ _ _ _ _ _
  · by_cases h2 : "region" = f
    · subst h2; exact vf_missing_region h _ _ _ _ _ _ _ _ _ _ _
    · by_cases h3 : "vcpu" = f
      · subst h3; exact vf_missing_vcpu h _ _ _ _ _ _ _ _ _ _ _
      · by_cases h4 : "memory_gib" = f
        · subst h4; exact vf_missing_mem h _ _ _ _ _ _ _ _ _ _ _
        · by_cases h5 : "os" = f
          · subst h5; exact vf_missing_os h _ _ _ _ _ _ _ _ _ _ _
          · by_cases h6 : "purchase_option" = f
            · subst h6; exact vf_missing_po h _ _ _ _ _ _ _ _ _ _ _
            · by_cases h7 : "profile" = f
              · subst h7; exact vf_missing_profile h _ _ _ _ _ _ _ _ _ _ _
              · by_cases h8 : "arch" = f
                · subst h8; exact vf_missing_arch h _ _ _ _ _ _ _ _ _ _ _
                · by_cases h9 : "root_gb" = f
                  · subst h9; exact vf_missing_rootgb h _ _ _ _ _ _ _ _ _ _ _
                  · by_cases h10 : "root_type" = f
                    · subst h10; exact vf_missing_roottype h _ _ _ _ _ _ _ _ _ _ _
                    · by_cases h11 : "byol" = f
                      · subst h11; exact vf_missing_byol h _ _ _ _ _ _ _ _ _ _ _
                      · by_cases h12 : "ahub" = f
                        · subst h12; exact vf_missing_ahub h _ _ _ _ _ _ _ _ _ _ _
                        · simp only [validate_row, Row.set, if_neg h1, if_neg h2,
                            if_neg h3, if_neg h4, if_neg h5, if_neg h6, if_neg h7,
                            if_neg h8, if_neg h9, if_neg h10, if_neg h11, if_neg h12]

/-- Witness for C7: substituting `"NaN"` for `memory_gib` yields the same
`ValidationResult` as substituting `None`. -/
theorem C7_missingness_uniformity_witness :
    NULLISH_STR.contains (py_lower (py_strip "NaN")) = true ∧
    validate_row (Row.set rowOkBase "memory_gib" (Value.str "NaN")) =
      validate_row (Row.set rowOkBase "memory_gib" Value.none) :=
  ⟨by decide, C7_missingness_uniformity rowOkBase "memory_gib" "NaN" (by decide)⟩

/-- C8: AWS region normalization policy.  For an AWS row whose region cell
normalizes to the non-missing string `r` (with `r_l` its lowercasing):
already-canonical codes (GovCloud included) produce no region issue;
an alias that normalizes to a canonical code produces exactly one warning,
not an error; an unrecognized region produces exactly one error whose fix
hint carries nearest-match suggestions, in the looks-like-an-Azure-region
form exactly when the token is an Azure canonical slug. -/
theorem C8_aws_region_policy :
    ∀ (cl : Option String) (region_raw : Value) (r : String),
      py_lower (py_strip (cl.getD "")) = "aws" →
      norm_str region_raw = some r →
      ((ALL_AWS_REGIONS.contains (py_lower r) = true →
        validate_region_for_cloud cl region_raw = []) ∧
       (ALL_AWS_REGIONS.contains (py_lower r) = false →
        ALL_AWS_REGIONS.contains (normalize_aws_region (py_lower r)) = true →
        validate_region_for_cloud cl region_raw =
          [⟨"warn", "region",
            "normalized " ++ pyStr region_raw ++ " to " ++ normalize_aws_region (py_lower r),
            "Prefer canonical AWS codes (e.g., us-gov-west-1, us-east-1)."⟩]) ∧
       (ALL_AWS_REGIONS.contains (normalize_aws_region (py_lower r)) = false →
        validate_region_for_cloud cl region_raw =
          [⟨"error", "region", "invalid AWS region " ++ pyStr region_raw,
            if AZURE_REGIONS.contains (py_lower r) then
              aws_region_fix_azure_like region_raw (py_lower r)
            else aws_region_fix_plain (py_lower r)⟩])) := by
  intro cl region_raw r hc hn
  refine ⟨?_, ?_, ?_⟩
  · intro hin
    have hmem : py_lower r ∈ ALL_AWS_REGIONS := List.mem_of_elem_eq_true hin
    simp only [validate_region_for_cloud, hn]
    rw [hc]
    simp only [ALL_AWS_REGIONS, AWS_REGIONS, AWS_GOV_REGIONS, List.append_eq,
      List.cons_append, List.nil_append, List.mem_cons, List.mem_singleton,
      List.not_mem_nil, or_false] at hmem
    rcases hmem with h|h|h|h|h|h|h|h|h|h|h|h|h|h|h|h|h|h|h|h|h|h|h|h|h|h|h <;>
      (rw [h]; rfl)
  · intro hnotin hnormin
    have hne : normalize_aws_region (py_lower r) ≠ py_lower r := by
      intro he
      rw [he] at hnormin
      rw [hnormin] at hnotin
      exact absurd hnotin (by simp)
    simp only [validate_region_for_cloud, hn]
    rw [hc]
    rw [if_neg (show ¬(("aws" : String) == "azure") = true by decide)]
    rw [if_pos (show (("aws" : String) == "aws") = true by decide)]
    rw [if_pos hnormin]
    rw [if_pos (show (normalize_aws_region (py_lower r) != py_lower r) = true from
      bne_iff_ne.mpr hne)]
  · intro hnormnot
    simp only [validate_region_for_cloud, hn]
    rw [hc]
    rw [if_neg (show ¬(("aws" : String) == "azure") = true by decide)]
    rw [if_pos (show (("aws" : String) == "aws") = true by decide)]
    rw [if_neg (show ¬(ALL_AWS_REGIONS.contains (normalize_aws_region (py_lower r))) = true by
      rw [hnormnot]; decide)]

set_option maxRecDepth 8192 in
/-- Witness for C8: `us-gov-west-1` is canonical (no issue), the alias
`aws govcloud us-west` yields exactly one warning, and the Azure slug
`eastus` yields exactly one error carrying the Azure-lookalike hint. -/
theorem C8_aws_region_policy_witness :
    validate_region_for_cloud (some "aws") (.str "us-gov-west-1") = [] ∧
    (validate_region_for_cloud (some "aws") (.str "aws govcloud us-west")).map Issue.level = ["warn"] ∧
    (validate_region_for_cloud (some "aws") (.str "eastus")).map Issue.level = ["error"] ∧
    (validate_region_for_cloud (some "aws") (.str "eastus")).map Issue.fix_hint =
      [aws_region_fix_azure_like (.str "eastus") "eastus"] := by
  have h1 := (C8_aws_region_policy (some "aws") (.str "us-gov-west-1") "us-gov-west-1"
    (by decide) (by decide)).1 (by decide)
  have h2 := (C8_aws_region_policy (some "aws") (.str "aws govcloud us-west")
    "aws govcloud us-west" (by decide) (by decide)).2.1 (by decide) (by decide)
  have h3 := (C8_aws_region_policy (some "aws") (.str "eastus") "eastus"
    (by decide) (by decide)).2.2 (by decide)
  refine ⟨h1, ?_, ?_, ?_⟩
  · rw [h2]; rfl
  · rw [h3]; rfl
  · rw [h3]; decide

theorem smallest_meeting_cpu_of_mem {catalog : List Shape} {v : ℤ} {t : Shape}
    (ht : t ∈ catalog) (h : decide (v ≤ t.vcpu) = true) :
    ∃ s, smallest_meeting_cpu catalog v = some s := by
  simp only [smallest_meeting_cpu]
  obtain ⟨s, rest, hsr⟩ :=
    py_sorted_filter_cons_of_mem (p := fun s => decide (v ≤ s.vcpu)) _ ht h
  rw [hsr]
  exact ⟨s, rfl⟩

theorem smallest_meeting_mem_of_mem {catalog : List Shape} {m : ℚ} {t : Shape}
    (ht : t ∈ catalog) (h : decide (m ≤ t.memory_gib) = true) :
    ∃ s, smallest_meeting_mem catalog m = some s := by
  simp only [smallest_meeting_mem]
  obtain ⟨s, rest, hsr⟩ :=
    py_sorted_filter_cons_of_mem (p := fun s => decide (m ≤ s.memory_gib)) _ ht h
  rw [hsr]
  exact ⟨s, rfl⟩

/-- Counterexample to C6 as stated: the cpu-bound/memory-bound rule is not
applied to "every row with a chosen shape".  On the Azure path a chosen,
non-exact shape leaves the fit reason empty even though the rule claimed
(mem-only candidate resource-ranked at or above the vCPU-only candidate)
would demand "memory-bound". -/
theorem C6_fit_classification_counterexample :
    pick_azure_size catAz 4 32 = some ⟨"Standard_D8s_v5", 8, 32⟩ ∧
    rank_ge (smallest_meeting_mem catAz 32) (smallest_meeting_cpu catAz 4) = true ∧
    recommend_fit "azure" catAz "balanced" 4 32 = "" ∧
    recommend_fit "azure" catAz "balanced" 4 32 ≠ "memory-bound" := by
  refine ⟨by decide, by decide, by decide, ?_⟩
  intro h
  rw [show recommend_fit "azure" catAz "balanced" 4 32 = "" from by decide] at h
  exact absurd h (by decide)

/-- C6 (amended): fit classification rule, restricted — as the code does —
to AWS rows.  For an AWS row with a chosen shape the fit reason is "exact"
when the chosen vCPU equals the request and memory matches at 2-decimal
rounding, and otherwise "memory-bound" exactly when the smallest shape
meeting only the memory requirement is resource-ranked ≥ the smallest shape
meeting only the vCPU requirement, else "cpu-bound"; both constraint-only
candidates exist whenever a shape was chosen (so "no-fit-fallback" is
unreachable there).  On the Azure path a chosen shape yields "exact" or an
empty fit reason, never a bound classification. -/
theorem C6_fit_classification_amended :
    (∀ (catalog : List Shape) (profile : String) (v : ℤ) (m : ℚ) (s : Shape),
      pick_instance catalog profile v m = some s →
      (recommend_fit "aws" catalog profile v m =
        (if s.vcpu = v ∧ round2 s.memory_gib = round2 m then "exact"
         else if rank_ge (smallest_meeting_mem catalog m) (smallest_meeting_cpu catalog v)
         then "memory-bound" else "cpu-bound")) ∧
      (¬(s.vcpu = v ∧ round2 s.memory_gib = round2 m) →
        (smallest_meeting_cpu catalog v).isSome = true ∧
        (smallest_meeting_mem catalog m).isSome = true)) ∧
    (∀ (catalog : List Shape) (profile : String) (v : ℤ) (m : ℚ) (s : Shape),
      pick_azure_size catalog v m = some s →
      recommend_fit "azure" catalog profile v m =
        (if s.vcpu = v ∧ round2 s.memory_gib = round2 m then "exact" else "")) := by
  constructor
  · intro catalog profile v m s hp
    have hspec := pick_instance_spec hp
    have hql := qualifies_iff.mp hspec.2.1
    have hF : catalog.isEmpty = false := by
      cases catalog with
      | nil => exact absurd hspec.1 (List.not_mem_nil _)
      | cons a t => rfl
    obtain ⟨sc, hsc⟩ := smallest_meeting_cpu_of_mem hspec.1 (decide_eq_true hql.1)
    obtain ⟨sm, hsm⟩ := smallest_meeting_mem_of_mem hspec.1 (decide_eq_true hql.2)
    simp only [recommend_fit, recommend_choose]
    rw [if_neg (show ¬(("aws" : String) == "azure") = true by decide)]
    simp only [hp]
    by_cases hex : s.vcpu = v ∧ round2 s.memory_gib = round2 m
    · rw [if_pos hex, if_pos hex]
      exact ⟨by simp, fun hcon => absurd hex hcon⟩
    · rw [if_neg hex, if_neg hex]
      rw [if_pos (show (("aws" : String) == "aws") = true by decide)]
      rw [hF]
      have hguard : ((if (false : Bool) then none else smallest_meeting_cpu catalog v).isSome ||
          (if (false : Bool) then none else smallest_meeting_mem catalog m).isSome) = true := by
        simp only [Bool.false_eq_true, if_false]
        rw [hsc]
        simp
      rw [if_pos hguard]
      simp only [Bool.false_eq_true, if_false]
      exact ⟨by simp, fun _ => ⟨by rw [hsc]; rfl, by rw [hsm]; rfl⟩⟩
  · intro catalog profile v m s hp
    simp only [recommend_fit, recommend_choose]
    rw [if_pos (show (("azure" : String) == "azure") = true by decide)]
    simp only [hp]
    by_cases hex : s.vcpu = v ∧ round2 s.memory_gib = round2 m
    · rw [if_pos hex, if_pos hex]
    · rw [if_neg hex, if_neg hex]
      rw [if_neg (show ¬(("azure" : String) == "aws") = true by decide)]

/-- Witness for C6 (amended): requesting `(vcpu 4, memory 32)` against the
two-shape m6i catalog chooses `m6i.2xlarge` with fit reason
"memory-bound". -/
theorem C6_fit_classification_amended_witness :
    pick_instance catC6 "balanced" 4 32 = some ⟨"m6i.2xlarge", 8, 32⟩ ∧
    recommend_fit "aws" catC6 "balanced" 4 32 = "memory-bound" := by
  have hp : pick_instance catC6 "balanced" 4 32 = some ⟨"m6i.2xlarge", 8, 32⟩ := by decide
  have h := (C6_fit_classification_amended.1 catC6 "balanced" 4 32 ⟨"m6i.2xlarge", 8, 32⟩ hp).1
  refine ⟨hp, ?_⟩
  rw [h]
  decide

theorem monthly_compute_cost_cent (p : Option ℚ) (h : ℚ) :
    ∃ k : ℤ, monthly_compute_cost p h = (k : ℚ) / 100 := by
  unfold monthly_compute_cost
  exact round2_is_cent _

theorem monthly_ebs_cost_cent (g : ℚ) (t : String) :
    ∃ k : ℤ, monthly_ebs_cost g t = (k : ℚ) / 100 := by
  unfold monthly_ebs_cost
  exact round2_is_cent _

theorem monthly_s3_cost_cent (g : ℚ) :
    ∃ k : ℤ, monthly_s3_cost g = (k : ℚ) / 100 := by
  unfold monthly_s3_cost
  exact round2_is_cent _

theorem monthly_network_cost_cent (p : String) :
    ∃ k : ℤ, monthly_network_cost p = (k : ℚ) / 100 := by
  unfold monthly_network_cost
  split
  · exact ⟨0, by norm_num⟩
  · cases hm : NETWORK_PROFILE_TO_GB.lookup (py_lower (py_strip p)) with
    | none => exact ⟨0, by norm_num⟩
    | some gb => exact round2_is_cent _

/-- C2: Rounding invariant of the monthly total.  The reported monthly
total always equals the exact sum of the five component amounts, each of
which was independently rounded to cents before summation (no
round-only-at-the-end drift); and the concrete component scenario
`100.00 + 8.00 + 0.46 + 45.00 + 0.00` totals `153.46` exactly. -/
theorem C2_rounding_invariant :
    (∀ (cp : Option ℚ) (hours ebs_gb : ℚ) (et : String) (s3_gb : ℚ) (np : String) (db : ℚ),
      (price_row_items cp hours ebs_gb et s3_gb np db).total =
        (price_row_items cp hours ebs_gb et s3_gb np db).compute +
        (price_row_items cp hours ebs_gb et s3_gb np db).ebs +
        (price_row_items cp hours ebs_gb et s3_gb np db).s3 +
        (price_row_items cp hours ebs_gb et s3_gb np db).network +
        (price_row_items cp hours ebs_gb et s3_gb np db).db) ∧
    price_row_items (some 100) 1 100 "gp3" 20 "medium" 0 =
      ⟨100, 8, mkRat 46 100, 45, 0, mkRat 15346 100⟩ := by
  constructor
  · intro cp hours ebs_gb et s3_gb np db
    obtain ⟨k1, h1⟩ := monthly_compute_cost_cent cp hours
    obtain ⟨k2, h2⟩ := monthly_ebs_cost_cent ebs_gb et
    obtain ⟨k3, h3⟩ := monthly_s3_cost_cent s3_gb
    obtain ⟨k4, h4⟩ := monthly_network_cost_cent np
    obtain ⟨k5, h5⟩ := round2_is_cent db
    show round2 (monthly_compute_cost cp hours + monthly_ebs_cost ebs_gb et +
        monthly_s3_cost s3_gb + monthly_network_cost np + round2 db) =
      monthly_compute_cost cp hours + monthly_ebs_cost ebs_gb et +
        monthly_s3_cost s3_gb + monthly_network_cost np + round2 db
    rw [h1, h2, h3, h4, h5]
    rw [show (k1 : ℚ)/100 + k2/100 + k3/100 + k4/100 + k5/100 =
        ((k1 + k2 + k3 + k4 + k5 : ℤ) : ℚ)/100 from by push_cast; ring]
    exact round2_cent _
  · have hcomp : monthly_compute_cost (some 100) 1 = 100 := by
      have e0 : monthly_compute_cost (some 100) 1 = round2 ((100 : ℚ) * 1) := rfl
      rw [e0, show (100 : ℚ) * 1 = 100 from by norm_num]
      decide
    have he : monthly_ebs_cost 100 "gp3" = 8 := by
      have e0 : monthly_ebs_cost 100 "gp3" = round2 (max 0 100 * EBS_GP3_GB_MONTH) := rfl
      rw [e0, show max (0 : ℚ) 100 * EBS_GP3_GB_MONTH = 8 from by
        rw [max_eq_right (by norm_num : (0 : ℚ) ≤ 100)]
        rw [EBS_GP3_GB_MONTH, Rat.mkRat_eq_div]
        norm_num]
      decide
    have hs : monthly_s3_cost 20 = mkRat 46 100 := by
      have e0 : monthly_s3_cost 20 = round2 (max 0 20 * S3_STD_GB_MONTH) := rfl
      rw [e0, show max (0 : ℚ) 20 * S3_STD_GB_MONTH = mkRat 46 100 from by
        rw [max_eq_right (by norm_num : (0 : ℚ) ≤ 20)]
        rw [S3_STD_GB_MONTH, Rat.mkRat_eq_div, Rat.mkRat_eq_div]
        norm_num]
      decide
    have hn : monthly_network_cost "medium" = 45 := by
      have e0 : monthly_network_cost "medium" = round2 ((500 : ℚ) * DTO_GB_PRICE) := rfl
      rw [e0, show (500 : ℚ) * DTO_GB_PRICE = 45 from by
        rw [DTO_GB_PRICE, Rat.mkRat_eq_div]
        norm_num]
      decide
    have hd : round2 (0 : ℚ) = 0 := by decide
    have htot : round2 (monthly_compute_cost (some 100) 1 + monthly_ebs_cost 100 "gp3" +
        monthly_s3_cost 20 + monthly_network_cost "medium" + round2 0) = mkRat 15346 100 := by
      rw [hcomp, he, hs, hn, hd]
      rw [show (100 : ℚ) + 8 + mkRat 46 100 + 45 + 0 = mkRat 15346 100 from by
        rw [Rat.mkRat_eq_div, Rat.mkRat_eq_div]
        norm_num]
      decide
    simp only [price_row_items, PricedLineItems.mk.injEq]
    exact ⟨hcomp, he, hs, hn, hd, htot⟩

/-- C9: BYOL zero-uplift monotonicity.  For a fixed shape/region/OS with a
fixed underlying base price (the external live/override sources answer
independently of the license token), the hourly VM price under `BYOL`
never exceeds the price under a license-included model; on the heuristic
path the license-uplift component is exactly zero under BYOL and one cent
otherwise; and Azure SQL monthly cost under `AHUB` (the Azure equivalent of
BYOL) never exceeds the `LicenseIncluded` cost. -/
theorem C9_byol_zero_uplift :
    (∀ (live : Option ℚ) (ov : String → Option ℚ) (os lic : String),
      (∀ l₁ l₂, ov l₁ = ov l₂) →
      azure_vm_price_hourly live ov os "BYOL" ≤ azure_vm_price_hourly live ov os lic) ∧
    (∀ (ov : String → Option ℚ) (os lic : String),
      py_lower (py_strip lic) ≠ "byol" →
      ov "BYOL" = none → ov lic = none →
      azure_vm_price_hourly none ov os lic =
        azure_vm_price_hourly none ov os "BYOL" + mkRat 1 100) ∧
    (∀ (dep region tier fam : String) (vcores storage hours : ℚ),
      0 ≤ vcores → 0 ≤ hours →
      monthly_azure_sql_cost [] dep region tier fam vcores storage "AHUB" hours true ≤
        monthly_azure_sql_cost [] dep region tier fam vcores storage "LicenseIncluded" hours true) := by
  refine ⟨?_, ?_, ?_⟩
  · intro live ov os lic hfix
    cases live with
    | some p => exact le_refl p
    | none =>
      cases h : ov lic with
      | some o =>
        have hB : ov "BYOL" = some o := (hfix "BYOL" lic).trans h
        simp only [azure_vm_price_hourly, hB, h]
        exact le_refl o
      | none =>
        have hB : ov "BYOL" = none := (hfix "BYOL" lic).trans h
        simp only [azure_vm_price_hourly, hB, h]
        rw [if_pos (show (py_lower (py_strip "BYOL") == "byol") = true by decide)]
        by_cases hb : (py_lower (py_strip lic) == "byol") = true
        · rw [if_pos hb]
        · rw [if_neg hb]
          have h01 : (0 : ℚ) ≤ mkRat 1 100 := by
            rw [Rat.mkRat_eq_div]; norm_num
          linarith
  · intro ov os lic hlic hB hL
    simp only [azure_vm_price_hourly, hB, hL]
    rw [if_pos (show (py_lower (py_strip "BYOL") == "byol") = true by decide)]
    rw [if_neg (show ¬(py_lower (py_strip lic) == "byol") = true from by
      simp only [beq_iff_eq]
      exact hlic)]
    ring
  · intro dep region tier fam vcores storage hours hv hh
    unfold monthly_azure_sql_cost
    simp only [Bool.true_and, List.isEmpty_nil, Bool.not_true, Bool.and_false, if_false,
      Bool.false_eq_true]
    rw [if_pos (show (py_upper (py_strip (if ("AHUB" : String) = "" then "LicenseIncluded" else "AHUB")) == "AHUB") = true by decide)]
    rw [if_neg (show ¬(py_upper (py_strip (if ("LicenseIncluded" : String) = "" then "LicenseIncluded" else "LicenseIncluded")) == "AHUB") = true by decide)]
    apply round2_mono
    have hbase : 0 < (if (py_lower (py_strip (if dep = "" then "single" else dep)) == "mi")
        then AZSQL_MI_VCORE_HOURLY_GP else AZSQL_DB_VCORE_HOURLY_GP) := by
      split_ifs <;>
        norm_num [AZSQL_MI_VCORE_HOURLY_GP, AZSQL_DB_VCORE_HOURLY_GP, Rat.mkRat_eq_div]
    have hmult : 0 < (if (py_lower (py_replace (py_strip (if tier = "" then "GeneralPurpose" else tier)) "_" "") == "businesscritical" ||
          py_lower (py_replace (py_strip (if tier = "" then "GeneralPurpose" else tier)) "_" "") == "bc")
        then AZSQL_BC_MULTIPLIER
        else if (py_lower (py_replace (py_strip (if tier = "" then "GeneralPurpose" else tier)) "_" "") == "hyperscale" ||
          py_lower (py_replace (py_strip (if tier = "" then "GeneralPurpose" else tier)) "_" "") == "hs")
        then AZSQL_HS_MULTIPLIER else 1) := by
      split_ifs <;>
        norm_num [AZSQL_BC_MULTIPLIER, AZSQL_HS_MULTIPLIER, Rat.mkRat_eq_div]
    have hc : 0 ≤ vcores * _ * _ := mul_nonneg (mul_nonneg hv (le_of_lt hbase)) (le_of_lt hmult)
    have hd : (1 : ℚ) - AZSQL_AHUB_DISCOUNT = mkRat 75 100 := by
      rw [AZSQL_AHUB_DISCOUNT, Rat.mkRat_eq_div, Rat.mkRat_eq_div]; norm_num
    rw [hd]
    have h75 : (mkRat 75 100 : ℚ) ≤ 1 := by rw [Rat.mkRat_eq_div]; norm_num
    have h75n : (0 : ℚ) ≤ mkRat 75 100 := by rw [Rat.mkRat_eq_div]; norm_num
    have hch : 0 ≤ vcores * _ * _ * hours := mul_nonneg hc hh
    nlinarith [hch, mul_le_of_le_one_right hch h75]

/-- Witness for C9 at concrete inputs: with no live price and no override,
Windows BYOL is cheaper than license-included by exactly one cent of
uplift, and a 4-vCore GeneralPurpose Azure SQL database is cheaper under
AHUB than under LicenseIncluded. -/
theorem C9_byol_zero_uplift_witness :
    azure_vm_price_hourly none (fun _ => none) "windows" "BYOL" ≤
      azure_vm_price_hourly none (fun _ => none) "windows" "LicenseIncluded" ∧
    azure_vm_price_hourly none (fun _ => none) "windows" "LicenseIncluded" =
      azure_vm_price_hourly none (fun _ => none) "windows" "BYOL" + mkRat 1 100 ∧
    monthly_azure_sql_cost [] "single" "eastus" "GeneralPurpose" "" 4 100 "AHUB" 730 true ≤
      monthly_azure_sql_cost [] "single" "eastus" "GeneralPurpose" "" 4 100 "LicenseIncluded" 730 true :=
  ⟨C9_byol_zero_uplift.1 none (fun _ => none) "windows" "LicenseIncluded" (fun _ _ => rfl),
   C9_byol_zero_uplift.2.1 (fun _ => none) "windows" "LicenseIncluded" (by decide) rfl rfl,
   C9_byol_zero_uplift.2.2 "single" "eastus" "GeneralPurpose" "" 4 100 730 (by decide) (by decide)⟩

/-- C4: Single-cloud-per-run fail-fast.  If any input row of a price run
carries a non-empty cloud tag different from the run's declared cloud, the
whole run returns a descriptive error before any per-row pricing is
performed: no priced-row output is ever produced for such a batch. -/
theorem C4_single_cloud_fail_fast :
    ∀ (expected : String) (rows : List Row) (fn : Row → PricedLineItems) (r : Row),
      r ∈ rows →
      price_cloud_tag r ≠ "" →
      price_cloud_tag r ≠ expected →
      (∃ e, price_cmd_run expected rows fn = .error e) ∧
      ∀ out, price_cmd_run expected rows fn ≠ .ok out := by
  intro expected rows fn r hr htne htexp
  have hmem : price_cloud_tag r ∈ ((rows.map price_cloud_tag).dedup).erase "" := by
    apply (List.mem_erase_of_ne htne).mpr
    exact List.mem_dedup.mpr (List.mem_map_of_mem _ hr)
  have hseen : ((rows.map price_cloud_tag).dedup).erase "" ≠ [] := List.ne_nil_of_mem hmem
  have hcond : ((rows.map price_cloud_tag).dedup).erase "" ≠ [] ∧
      (1 < (((rows.map price_cloud_tag).dedup).erase "").length ∨
       (((rows.map price_cloud_tag).dedup).erase "").head? ≠ some expected) := by
    refine ⟨hseen, ?_⟩
    by_cases hlen : 1 < (((rows.map price_cloud_tag).dedup).erase "").length
    · exact Or.inl hlen
    · right
      cases hsl : ((rows.map price_cloud_tag).dedup).erase "" with
      | nil => exact absurd hsl hseen
      | cons a t =>
        cases t with
        | cons b u =>
          rw [hsl] at hlen
          simp at hlen
        | nil =>
          rw [hsl] at hmem
          have ha : a = price_cloud_tag r := (List.mem_singleton.mp hmem).symm
          simp only [List.head?_cons, ha, ne_eq, Option.some.injEq]
          exact htexp
  have hE : rows.isEmpty = false := by
    cases rows with
    | nil => exact absurd hr (List.not_mem_nil _)
    | cons a t => rfl
  have heq : price_cmd_run expected rows fn = .error ("This price run is for --cloud " ++
      expected ++ ", but the file contains cloud=" ++
      py_join ", " (py_sorted py_str_le (((rows.map price_cloud_tag).dedup).erase "")) ++
      ". Price with the matching --cloud or re-run recommend for a single cloud.") := by
    unfold price_cmd_run
    rw [if_neg (by rw [hE]; exact Bool.false_ne_true), if_pos hcond]
  refine ⟨⟨_, heq⟩, ?_⟩
  intro out hcon
  rw [heq] at hcon
  exact Except.noConfusion hcon

/-- Witness for C4: a two-row batch declared `aws` containing an `azure`
row fails fast with an error and produces no output. -/
theorem C4_single_cloud_fail_fast_witness :
    (Row.set rowOkBase "cloud" (.str "Azure")) ∈
      [rowOkBase, Row.set rowOkBase "cloud" (.str "Azure")] ∧
    price_cloud_tag (Row.set rowOkBase "cloud" (.str "Azure")) ≠ "" ∧
    price_cloud_tag (Row.set rowOkBase "cloud" (.str "Azure")) ≠ "aws" ∧
    (∃ e, price_cmd_run "aws" [rowOkBase, Row.set rowOkBase "cloud" (.str "Azure")]
      (fun _ => ⟨0, 0, 0, 0, 0, 0⟩) = .error e) := by
  have h := C4_single_cloud_fail_fast "aws"
    [rowOkBase, Row.set rowOkBase "cloud" (.str "Azure")]
    (fun _ => ⟨0, 0, 0, 0, 0, 0⟩)
    (Row.set rowOkBase "cloud" (.str "Azure"))
    (by simp) (by decide) (by decide)
  exact ⟨by simp, by decide, by decide, h.1⟩
